import Mathlib

/-!
Verification of an ECOFF object-file decoder.

The decoder reads, from a seekable byte stream: a file header, an optional
header (present iff the file header's f_opthdr field is positive), f_nscns
section headers each followed by materializing its payload via an absolute
seek, then (after seeking to f_symptr) a symbolic debug header, and finally
the local and external string tables located by the symbolic header.

Bytes are modelled as natural numbers; a byte value is taken modulo 256 when
assembled into a big-endian integer, matching a u8 wire format.  The reader
state is the full input together with a current position; reads that cannot
obtain the requested number of bytes fail, carrying the requested and the
available count, which models the io error produced by read_exact at end of
input.  Seeking beyond the end of the input succeeds, and a zero-length read
succeeds even there, matching the behaviour of Seek and read_exact.
-/

/-- Error produced by a decode.  The source only ever produces the
truncated-input form (read_exact failing at end of input); the invalid-layout
form exists in the design vocabulary but is shown unused. -/
inductive DecodeError where
  | truncatedInput (requested available : Nat)
  | invalidLayout (reason : String)
deriving Repr, DecidableEq

/-- State of the primitive reader: the whole input and the current position. -/
structure ReaderState where
  bytes : List Nat
  pos : Nat
deriving Repr, DecidableEq

/-- Decoder monad: state threading of the reader over a fallible result. -/
abbrev DecM (α : Type) : Type := StateT ReaderState (Except DecodeError) α

/-- Big-endian assembly of a byte list into a natural number; each byte is
taken modulo 256, as on the wire. -/
def beNat (l : List Nat) : Nat :=
  l.foldl (fun a b => a * 256 + b % 256) 0

/-- Read exactly n bytes from the current position, advancing it; fails with
the requested and available counts when fewer than n bytes remain.  A
zero-length read always succeeds, even past the end of input. -/
def readBytes (n : Nat) : DecM (List Nat) := fun s =>
  if n ≤ s.bytes.length - s.pos then
    .ok ((s.bytes.drop s.pos).take n, ⟨s.bytes, s.pos + n⟩)
  else
    .error (.truncatedInput n (s.bytes.length - s.pos))

/-- Absolute seek; never fails, validation happens at the next read. -/
def seekTo (off : Nat) : DecM Unit := fun s =>
  .ok ((), ⟨s.bytes, off⟩)

/-- Read a big-endian 16-bit integer (two bytes). -/
def readU16BE : DecM Nat := do
  let bs ← readBytes 2
  pure (beNat bs)

/-- Read a big-endian 32-bit integer (four bytes). -/
def readU32BE : DecM Nat := do
  let bs ← readBytes 4
  pure (beNat bs)

/-- ECOFF file header: 20 bytes. -/
structure EcoffFileHeader where
  f_magic : Nat
  f_nscns : Nat
  f_timdat : Nat
  f_symptr : Nat
  f_nsyms : Nat
  f_opthdr : Nat
  f_flags : Nat
deriving Repr, DecidableEq

/-- ECOFF optional header: 56 bytes. -/
structure EcoffOptionalHeader where
  magic : Nat
  vstamp : Nat
  tsize : Nat
  dsize : Nat
  bsize : Nat
  entry : Nat
  text_start : Nat
  data_start : Nat
  bss_start : Nat
  gprmask : Nat
  cprmask : List Nat
  gp_value : Nat
deriving Repr, DecidableEq

/-- ECOFF section header: 40 bytes, the first eight an opaque name. -/
structure EcoffSectionHeader where
  s_name : List Nat
  s_paddr : Nat
  s_vaddr : Nat
  s_size : Nat
  s_scnptr : Nat
  s_relptr : Nat
  s_lnnoptr : Nat
  s_nreloc : Nat
  s_nlnno : Nat
  s_flags : Nat
deriving Repr, DecidableEq

/-- ECOFF symbolic debug header: 96 bytes. -/
structure SymbolHeader where
  magic : Nat
  vstamp : Nat
  iline_max : Nat
  cb_line : Nat
  cb_line_offset : Nat
  idn_max : Nat
  cb_dn_offset : Nat
  ipd_max : Nat
  cb_pd_offset : Nat
  isym_max : Nat
  cb_sym_offset : Nat
  iopt_max : Nat
  cb_opt_offset : Nat
  iaux_max : Nat
  cb_aux_offset : Nat
  iss_max : Nat
  cb_ss_offset : Nat
  iss_ext_max : Nat
  cb_ss_ext_offset : Nat
  ifd_max : Nat
  cb_fd_offset : Nat
  crfd : Nat
  cb_rfd_offset : Nat
  iext_max : Nat
  cb_ext_offset : Nat
deriving Repr, DecidableEq

/-- Sequential decode of the 20-byte file header, field by field. -/
def read_file_header : DecM EcoffFileHeader := do
  let f_magic ← readU16BE
  let f_nscns ← readU16BE
  let f_timdat ← readU32BE
  let f_symptr ← readU32BE
  let f_nsyms ← readU32BE
  let f_opthdr ← readU16BE
  let f_flags ← readU16BE
  pure { f_magic, f_nscns, f_timdat, f_symptr, f_nsyms, f_opthdr, f_flags }

/-- Sequential decode of the 56-byte optional header, field by field. -/
def read_optional_header : DecM EcoffOptionalHeader := do
  let magic ← readU16BE
  let vstamp ← readU16BE
  let tsize ← readU32BE
  let dsize ← readU32BE
  let bsize ← readU32BE
  let entry ← readU32BE
  let text_start ← readU32BE
  let data_start ← readU32BE
  let bss_start ← readU32BE
  let gprmask ← readU32BE
  let c0 ← readU32BE
  let c1 ← readU32BE
  let c2 ← readU32BE
  let c3 ← readU32BE
  let gp_value ← readU32BE
  pure { magic, vstamp, tsize, dsize, bsize, entry, text_start, data_start,
         bss_start, gprmask, cprmask := [c0, c1, c2, c3], gp_value }

/-- Sequential decode of the 40-byte section header: an eight-byte opaque
name then the numeric fields. -/
def read_section_header : DecM EcoffSectionHeader := do
  let s_name ← readBytes 8
  let s_paddr ← readU32BE
  let s_vaddr ← readU32BE
  let s_size ← readU32BE
  let s_scnptr ← readU32BE
  let s_relptr ← readU32BE
  let s_lnnoptr ← readU32BE
  let s_nreloc ← readU16BE
  let s_nlnno ← readU16BE
  let s_flags ← readU32BE
  pure { s_name, s_paddr, s_vaddr, s_size, s_scnptr, s_relptr, s_lnnoptr,
         s_nreloc, s_nlnno, s_flags }

/-- Materialize a section payload: seek to the declared data offset and read
exactly the declared size. -/
def read_section_data (header : EcoffSectionHeader) : DecM (List Nat) := do
  seekTo header.s_scnptr
  readBytes header.s_size

/-- Sequential decode of the 96-byte symbolic debug header. -/
def read_symbol_header : DecM SymbolHeader := do
  let magic ← readU16BE
  let vstamp ← readU16BE
  let iline_max ← readU32BE
  let cb_line ← readU32BE
  let cb_line_offset ← readU32BE
  let idn_max ← readU32BE
  let cb_dn_offset ← readU32BE
  let ipd_max ← readU32BE
  let cb_pd_offset ← readU32BE
  let isym_max ← readU32BE
  let cb_sym_offset ← readU32BE
  let iopt_max ← readU32BE
  let cb_opt_offset ← readU32BE
  let iaux_max ← readU32BE
  let cb_aux_offset ← readU32BE
  let iss_max ← readU32BE
  let cb_ss_offset ← readU32BE
  let iss_ext_max ← readU32BE
  let cb_ss_ext_offset ← readU32BE
  let ifd_max ← readU32BE
  let cb_fd_offset ← readU32BE
  let crfd ← readU32BE
  let cb_rfd_offset ← readU32BE
  let iext_max ← readU32BE
  let cb_ext_offset ← readU32BE
  pure { magic, vstamp, iline_max, cb_line, cb_line_offset, idn_max,
         cb_dn_offset, ipd_max, cb_pd_offset, isym_max, cb_sym_offset,
         iopt_max, cb_opt_offset, iaux_max, cb_aux_offset, iss_max,
         cb_ss_offset, iss_ext_max, cb_ss_ext_offset, ifd_max, cb_fd_offset,
         crfd, cb_rfd_offset, iext_max, cb_ext_offset }

/-- Conditional decode of the optional header, gated on f_opthdr being
positive; when absent, no bytes are consumed and the state is untouched. -/
def readOptionalIfPresent (fh : EcoffFileHeader) : DecM (Option EcoffOptionalHeader) :=
  if 0 < fh.f_opthdr then do
    let oh ← read_optional_header
    pure (some oh)
  else
    pure none

/-- Decode n section headers, materializing each payload right after its
header; no reseek happens after a payload read, so the next header is read
from wherever the payload read left the position. -/
def readSections : Nat → DecM (List (EcoffSectionHeader × List Nat))
  | 0 => pure []
  | n + 1 => do
      let hdr ← read_section_header
      let data ← read_section_data hdr
      let rest ← readSections n
      pure ((hdr, data) :: rest)

/-- Extract a string-table blob: seek to the absolute offset and read exactly
the declared byte length. -/
def readStringTable (off len : Nat) : DecM (List Nat) := do
  seekTo off
  readBytes len

/-- Complete decoded object. -/
structure EcoffObject where
  fileHeader : EcoffFileHeader
  optionalHeader : Option EcoffOptionalHeader
  sections : List (EcoffSectionHeader × List Nat)
  symbolHeader : SymbolHeader
  localStrings : List Nat
  externalStrings : List Nat
deriving Repr, DecidableEq

/-- Pipeline after the file header: optional header, sections, seek to the
symbol table, symbolic header, then the two string tables. -/
def decodeFrom (fh : EcoffFileHeader) : DecM EcoffObject := do
  let opt ← readOptionalIfPresent fh
  let secs ← readSections fh.f_nscns
  seekTo fh.f_symptr
  let sh ← read_symbol_header
  let locals ← readStringTable sh.cb_ss_offset sh.iss_max
  let exts ← readStringTable sh.cb_ss_ext_offset sh.iss_ext_max
  pure { fileHeader := fh, optionalHeader := opt, sections := secs,
         symbolHeader := sh, localStrings := locals, externalStrings := exts }

/-- Whole-file decode, starting at position zero. -/
def decodeAll : DecM EcoffObject := do
  let fh ← read_file_header
  decodeFrom fh

/-- Decode an input byte list into an object or a single tagged error. -/
def decodeEcoff (input : List Nat) : Except DecodeError EcoffObject :=
  (decodeAll.run ⟨input, 0⟩).map Prod.fst

/-! ## Characterization helpers -/

/-- Big-endian 16-bit value stored at position i of the input. -/
def u16at (bytes : List Nat) (i : Nat) : Nat := beNat ((bytes.drop i).take 2)

/-- Big-endian 32-bit value stored at position i of the input. -/
def u32at (bytes : List Nat) (i : Nat) : Nat := beNat ((bytes.drop i).take 4)

/-- File header as laid out at position p of the input. -/
def fileHeaderAt (bytes : List Nat) (p : Nat) : EcoffFileHeader :=
  { f_magic := u16at bytes p, f_nscns := u16at bytes (p+2),
    f_timdat := u32at bytes (p+4), f_symptr := u32at bytes (p+8),
    f_nsyms := u32at bytes (p+12), f_opthdr := u16at bytes (p+16),
    f_flags := u16at bytes (p+18) }

/-- Optional header as laid out at position p of the input. -/
def optionalHeaderAt (bytes : List Nat) (p : Nat) : EcoffOptionalHeader :=
  { magic := u16at bytes p, vstamp := u16at bytes (p+2),
    tsize := u32at bytes (p+4), dsize := u32at bytes (p+8),
    bsize := u32at bytes (p+12), entry := u32at bytes (p+16),
    text_start := u32at bytes (p+20), data_start := u32at bytes (p+24),
    bss_start := u32at bytes (p+28), gprmask := u32at bytes (p+32),
    cprmask := [u32at bytes (p+36), u32at bytes (p+40),
                u32at bytes (p+44), u32at bytes (p+48)],
    gp_value := u32at bytes (p+52) }

/-- Section header as laid out at position p of the input. -/
def sectionHeaderAt (bytes : List Nat) (p : Nat) : EcoffSectionHeader :=
  { s_name := (bytes.drop p).take 8, s_paddr := u32at bytes (p+8),
    s_vaddr := u32at bytes (p+12), s_size := u32at bytes (p+16),
    s_scnptr := u32at bytes (p+20), s_relptr := u32at bytes (p+24),
    s_lnnoptr := u32at bytes (p+28), s_nreloc := u16at bytes (p+32),
    s_nlnno := u16at bytes (p+34), s_flags := u32at bytes (p+36) }

/-- Symbolic header as laid out at position p of the input. -/
def symbolHeaderAt (bytes : List Nat) (p : Nat) : SymbolHeader :=
  { magic := u16at bytes p, vstamp := u16at bytes (p+2),
    iline_max := u32at bytes (p+4), cb_line := u32at bytes (p+8),
    cb_line_offset := u32at bytes (p+12), idn_max := u32at bytes (p+16),
    cb_dn_offset := u32at bytes (p+20), ipd_max := u32at bytes (p+24),
    cb_pd_offset := u32at bytes (p+28), isym_max := u32at bytes (p+32),
    cb_sym_offset := u32at bytes (p+36), iopt_max := u32at bytes (p+40),
    cb_opt_offset := u32at bytes (p+44), iaux_max := u32at bytes (p+48),
    cb_aux_offset := u32at bytes (p+52), iss_max := u32at bytes (p+56),
    cb_ss_offset := u32at bytes (p+60), iss_ext_max := u32at bytes (p+64),
    cb_ss_ext_offset := u32at bytes (p+68), ifd_max := u32at bytes (p+72),
    cb_fd_offset := u32at bytes (p+76), crfd := u32at bytes (p+80),
    cb_rfd_offset := u32at bytes (p+84), iext_max := u32at bytes (p+88),
    cb_ext_offset := u32at bytes (p+92) }

/-- Error produced by a field-by-field decoder with the given field widths
when only avail bytes remain: the first field that crosses the end of the
remaining input reports its width and what was left at that point. -/
def truncErr : Nat → List Nat → DecodeError
  | avail, [] => .truncatedInput 0 avail
  | avail, w :: ws => if w ≤ avail then truncErr (avail - w) ws else .truncatedInput w avail

/-- Field widths of the file header decoder. -/
def fileHeaderWidths : List Nat := [2, 2, 4, 4, 4, 2, 2]

/-- Field widths of the optional header decoder. -/
def optionalHeaderWidths : List Nat :=
  [2, 2, 4, 4, 4, 4, 4, 4, 4, 4, 4, 4, 4, 4, 4]

/-- Field widths of the section header decoder. -/
def sectionHeaderWidths : List Nat := [8, 4, 4, 4, 4, 4, 4, 2, 2, 4]

/-- Field widths of the symbolic header decoder. -/
def symbolHeaderWidths : List Nat :=
  [2, 2, 4, 4, 4, 4, 4, 4, 4, 4, 4, 4, 4, 4, 4, 4, 4, 4, 4, 4, 4, 4, 4, 4, 4]

/-! ## Encoders

Modelled from the spec: the source repository contains no encoder (encoding
is out of scope for the runtime core); the spec's round-trip property and the
fixed big-endian field layout of section 3 determine these definitions. -/

/-- Modelled from the spec: big-endian encoding of a 16-bit value. -/
def encodeU16BE (v : Nat) : List Nat := [v / 256 % 256, v % 256]

/-- Modelled from the spec: big-endian encoding of a 32-bit value. -/
def encodeU32BE (v : Nat) : List Nat :=
  [v / 16777216 % 256, v / 65536 % 256, v / 256 % 256, v % 256]

/-- Modelled from the spec: 20-byte file header layout. -/
def encodeFileHeader (h : EcoffFileHeader) : List Nat :=
  encodeU16BE h.f_magic ++ encodeU16BE h.f_nscns ++ encodeU32BE h.f_timdat ++
  encodeU32BE h.f_symptr ++ encodeU32BE h.f_nsyms ++ encodeU16BE h.f_opthdr ++
  encodeU16BE h.f_flags

/-- Modelled from the spec: 56-byte optional header layout. -/
def encodeOptionalHeader (h : EcoffOptionalHeader) : List Nat :=
  encodeU16BE h.magic ++ encodeU16BE h.vstamp ++ encodeU32BE h.tsize ++
  encodeU32BE h.dsize ++ encodeU32BE h.bsize ++ encodeU32BE h.entry ++
  encodeU32BE h.text_start ++ encodeU32BE h.data_start ++
  encodeU32BE h.bss_start ++ encodeU32BE h.gprmask ++
  (h.cprmask.map encodeU32BE).flatten ++ encodeU32BE h.gp_value

/-- Modelled from the spec: 40-byte section header layout, the name stored as
its eight raw bytes. -/
def encodeSectionHeader (h : EcoffSectionHeader) : List Nat :=
  h.s_name ++ encodeU32BE h.s_paddr ++ encodeU32BE h.s_vaddr ++
  encodeU32BE h.s_size ++ encodeU32BE h.s_scnptr ++ encodeU32BE h.s_relptr ++
  encodeU32BE h.s_lnnoptr ++ encodeU16BE h.s_nreloc ++ encodeU16BE h.s_nlnno ++
  encodeU32BE h.s_flags

/-- Modelled from the spec: 96-byte symbolic header layout. -/
def encodeSymbolHeader (h : SymbolHeader) : List Nat :=
  encodeU16BE h.magic ++ encodeU16BE h.vstamp ++ encodeU32BE h.iline_max ++
  encodeU32BE h.cb_line ++ encodeU32BE h.cb_line_offset ++
  encodeU32BE h.idn_max ++ encodeU32BE h.cb_dn_offset ++
  encodeU32BE h.ipd_max ++ encodeU32BE h.cb_pd_offset ++
  encodeU32BE h.isym_max ++ encodeU32BE h.cb_sym_offset ++
  encodeU32BE h.iopt_max ++ encodeU32BE h.cb_opt_offset ++
  encodeU32BE h.iaux_max ++ encodeU32BE h.cb_aux_offset ++
  encodeU32BE h.iss_max ++ encodeU32BE h.cb_ss_offset ++
  encodeU32BE h.iss_ext_max ++ encodeU32BE h.cb_ss_ext_offset ++
  encodeU32BE h.ifd_max ++ encodeU32BE h.cb_fd_offset ++
  encodeU32BE h.crfd ++ encodeU32BE h.cb_rfd_offset ++
  encodeU32BE h.iext_max ++ encodeU32BE h.cb_ext_offset

/-- Field bounds under which a file header is representable on the wire. -/
def wfFileHeader (h : EcoffFileHeader) : Prop :=
  h.f_magic < 65536 ∧ h.f_nscns < 65536 ∧ h.f_timdat < 4294967296 ∧
  h.f_symptr < 4294967296 ∧ h.f_nsyms < 4294967296 ∧
  h.f_opthdr < 65536 ∧ h.f_flags < 65536

instance (h : EcoffFileHeader) : Decidable (wfFileHeader h) := by
  unfold wfFileHeader; infer_instance

/-- Field bounds under which an optional header is representable. -/
def wfOptionalHeader (h : EcoffOptionalHeader) : Prop :=
  h.magic < 65536 ∧ h.vstamp < 65536 ∧ h.tsize < 4294967296 ∧
  h.dsize < 4294967296 ∧ h.bsize < 4294967296 ∧ h.entry < 4294967296 ∧
  h.text_start < 4294967296 ∧ h.data_start < 4294967296 ∧
  h.bss_start < 4294967296 ∧ h.gprmask < 4294967296 ∧
  (∃ c0 c1 c2 c3, h.cprmask = [c0, c1, c2, c3] ∧ c0 < 4294967296 ∧
    c1 < 4294967296 ∧ c2 < 4294967296 ∧ c3 < 4294967296) ∧
  h.gp_value < 4294967296

/-- Field bounds under which a section header is representable. -/
def wfSectionHeader (h : EcoffSectionHeader) : Prop :=
  h.s_name.length = 8 ∧ h.s_paddr < 4294967296 ∧ h.s_vaddr < 4294967296 ∧
  h.s_size < 4294967296 ∧ h.s_scnptr < 4294967296 ∧ h.s_relptr < 4294967296 ∧
  h.s_lnnoptr < 4294967296 ∧ h.s_nreloc < 65536 ∧ h.s_nlnno < 65536 ∧
  h.s_flags < 4294967296

instance (h : EcoffSectionHeader) : Decidable (wfSectionHeader h) := by
  unfold wfSectionHeader; infer_instance

/-- Field bounds under which a symbolic header is representable. -/
def wfSymbolHeader (h : SymbolHeader) : Prop :=
  h.magic < 65536 ∧ h.vstamp < 65536 ∧ h.iline_max < 4294967296 ∧
  h.cb_line < 4294967296 ∧ h.cb_line_offset < 4294967296 ∧
  h.idn_max < 4294967296 ∧ h.cb_dn_offset < 4294967296 ∧
  h.ipd_max < 4294967296 ∧ h.cb_pd_offset < 4294967296 ∧
  h.isym_max < 4294967296 ∧ h.cb_sym_offset < 4294967296 ∧
  h.iopt_max < 4294967296 ∧ h.cb_opt_offset < 4294967296 ∧
  h.iaux_max < 4294967296 ∧ h.cb_aux_offset < 4294967296 ∧
  h.iss_max < 4294967296 ∧ h.cb_ss_offset < 4294967296 ∧
  h.iss_ext_max < 4294967296 ∧ h.cb_ss_ext_offset < 4294967296 ∧
  h.ifd_max < 4294967296 ∧ h.cb_fd_offset < 4294967296 ∧
  h.crfd < 4294967296 ∧ h.cb_rfd_offset < 4294967296 ∧
  h.iext_max < 4294967296 ∧ h.cb_ext_offset < 4294967296

instance (h : SymbolHeader) : Decidable (wfSymbolHeader h) := by
  unfold wfSymbolHeader; infer_instance

/-! ## Field-dependence analysis definitions -/

/-- Byte positions of the file header fields that do not gate the decode
(f_magic, f_timdat, f_nsyms, f_flags), together with the two bytes of the
optional-header magic when an optional header is declared present. -/
def mutablePositions (opthdr : Nat) : List Nat :=
  [0, 1, 4, 5, 6, 7, 12, 13, 14, 15, 18, 19] ++
    (if 0 < opthdr then [20, 21] else [])

/-- First byte position beyond every mutable position. -/
def mutBound (opthdr : Nat) : Nat := if 0 < opthdr then 22 else 20

/-- Two inputs of equal length that agree everywhere outside the mutable
(non-gating) field positions. -/
def agreeOutsideMutable (b1 b2 : List Nat) : Prop :=
  b1.length = b2.length ∧
    ∀ i : Nat, i ∉ mutablePositions (u16at b1 16) → b1[i]? = b2[i]?

/-- Every random-access target recorded in a decoded object lies at or beyond
the end of the mutable region: section payloads (and hence the positions of
subsequent section headers), the symbol table, and both string tables. -/
def seekTargetsBeyond (obj : EcoffObject) : Prop :=
  (∀ sd ∈ obj.sections, mutBound obj.fileHeader.f_opthdr ≤ sd.1.s_scnptr) ∧
  mutBound obj.fileHeader.f_opthdr ≤ obj.fileHeader.f_symptr ∧
  mutBound obj.fileHeader.f_opthdr ≤ obj.symbolHeader.cb_ss_offset ∧
  mutBound obj.fileHeader.f_opthdr ≤ obj.symbolHeader.cb_ss_ext_offset

/-- The decoded object with its non-gating fields replaced by the values laid
out in the second input: f_magic, f_timdat, f_nsyms, f_flags from the file
header region, and the optional-header magic when present. -/
def retagged (b2 : List Nat) (obj : EcoffObject) : EcoffObject :=
  { obj with
    fileHeader := { obj.fileHeader with
      f_magic := u16at b2 0, f_timdat := u32at b2 4,
      f_nsyms := u32at b2 12, f_flags := u16at b2 18 },
    optionalHeader := obj.optionalHeader.map fun oh =>
      { oh with magic := u16at b2 20 } }

/-! ## Concrete inputs -/

/-- Minimal successfully decodable input: a 20-byte file header with no
optional header and no sections, the symbol table directly after it, and both
string tables empty at offset zero. -/
def minOkInput : List Nat :=
  [0, 1, 0, 0, 0, 0, 0, 0, 0, 0, 0, 20, 0, 0, 0, 0, 0, 0, 0, 0] ++
    List.replicate 100 0

/-- Decoded form of minOkInput. -/
def zeroSymbolHeader : SymbolHeader :=
  { magic := 0, vstamp := 0, iline_max := 0, cb_line := 0, cb_line_offset := 0,
    idn_max := 0, cb_dn_offset := 0, ipd_max := 0, cb_pd_offset := 0,
    isym_max := 0, cb_sym_offset := 0, iopt_max := 0, cb_opt_offset := 0,
    iaux_max := 0, cb_aux_offset := 0, iss_max := 0, cb_ss_offset := 0,
    iss_ext_max := 0, cb_ss_ext_offset := 0, ifd_max := 0, cb_fd_offset := 0,
    crfd := 0, cb_rfd_offset := 0, iext_max := 0, cb_ext_offset := 0 }

/-- Object decoded from minOkInput. -/
def minOkObject : EcoffObject :=
  { fileHeader := { f_magic := 1, f_nscns := 0, f_timdat := 0, f_symptr := 20,
                    f_nsyms := 0, f_opthdr := 0, f_flags := 0 },
    optionalHeader := none, sections := [], symbolHeader := zeroSymbolHeader,
    localStrings := [], externalStrings := [] }

/-- Input with two sections whose first section header declares size 0 and
data offset 100, so that after materializing the first payload the position
is 100: the bytes at 60 (filled with 66) are the forty bytes directly after
the first section header, while the bytes at 100 (name filled with 67) are
where the decoder actually reads the second section header. -/
def twoSectionInput : List Nat :=
  [0, 1, 0, 2, 0, 0, 0, 0, 0, 0, 0, 140, 0, 0, 0, 0, 0, 0, 0, 0] ++
  (List.replicate 8 65 ++ [0, 0, 0, 0] ++ [0, 0, 0, 0] ++ [0, 0, 0, 0] ++
    [0, 0, 0, 100] ++ List.replicate 16 0) ++
  (List.replicate 8 66 ++ List.replicate 32 0) ++
  (List.replicate 8 67 ++ [0, 0, 0, 0] ++ [0, 0, 0, 0] ++ [0, 0, 0, 0] ++
    [0, 0, 0, 140] ++ List.replicate 16 0) ++
  List.replicate 100 0

/-- Input whose single section declares a size of 4294967280 at data offset
60 while the whole input is only 160 bytes long. -/
def hugeSizeInput : List Nat :=
  [0, 0, 0, 1, 0, 0, 0, 0, 0, 0, 0, 0, 0, 0, 0, 0, 0, 0, 0, 0] ++
  (List.replicate 8 0 ++ [0, 0, 0, 0] ++ [0, 0, 0, 0] ++ [255, 255, 255, 240] ++
    [0, 0, 0, 60] ++ List.replicate 16 0) ++
  List.replicate 100 0

/-- Input whose single section declares size 0 at data offset 1000, far
beyond the 160 bytes of the input; the symbol table is at offset 60. -/
def zeroSizeFarInput : List Nat :=
  [0, 0, 0, 1, 0, 0, 0, 0, 0, 0, 0, 60, 0, 0, 0, 0, 0, 0, 0, 0] ++
  (List.replicate 8 0 ++ [0, 0, 0, 0] ++ [0, 0, 0, 0] ++ [0, 0, 0, 0] ++
    [0, 0, 3, 232] ++ List.replicate 16 0) ++
  List.replicate 100 0

/-- Input whose single section payload is read at data offset 0, so the
payload bytes are the two bytes of f_magic itself; variant A has magic 1. -/
def overlapInputA : List Nat :=
  [0, 1, 0, 1, 0, 0, 0, 0, 0, 0, 0, 60, 0, 0, 0, 0, 0, 0, 0, 0] ++
  (List.replicate 8 0 ++ [0, 0, 0, 0] ++ [0, 0, 0, 0] ++ [0, 0, 0, 2] ++
    [0, 0, 0, 0] ++ List.replicate 16 0) ++
  List.replicate 100 0

/-- Variant B of the overlapping-payload input: identical to variant A except
that the two bytes of f_magic hold 2 instead of 1. -/
def overlapInputB : List Nat :=
  [0, 2, 0, 1, 0, 0, 0, 0, 0, 0, 0, 60, 0, 0, 0, 0, 0, 0, 0, 0] ++
  (List.replicate 8 0 ++ [0, 0, 0, 0] ++ [0, 0, 0, 0] ++ [0, 0, 0, 2] ++
    [0, 0, 0, 0] ++ List.replicate 16 0) ++
  List.replicate 100 0

/-- Input where every random-access target is beyond the file header: one
section with payload [7, 8] at offset 60, the symbol table at offset 62, and
both string tables empty at offset 162 (the end of the input). -/
def disjointInputA : List Nat :=
  [0, 9, 0, 1, 0, 0, 0, 0, 0, 0, 0, 62, 0, 0, 0, 0, 0, 0, 0, 0] ++
  (List.replicate 8 0 ++ [0, 0, 0, 0] ++ [0, 0, 0, 0] ++ [0, 0, 0, 2] ++
    [0, 0, 0, 60] ++ List.replicate 16 0) ++
  [7, 8] ++
  (List.replicate 56 0 ++ [0, 0, 0, 0] ++ [0, 0, 0, 162] ++ [0, 0, 0, 0] ++
    [0, 0, 0, 162] ++ List.replicate 28 0)

/-- Variant of disjointInputA with different f_magic, f_timdat, f_nsyms and
f_flags bytes and identical bytes everywhere else. -/
def disjointInputB : List Nat :=
  [1, 2, 0, 1, 9, 9, 9, 9, 0, 0, 0, 62, 1, 1, 1, 1, 0, 0, 2, 2] ++
  (List.replicate 8 0 ++ [0, 0, 0, 0] ++ [0, 0, 0, 0] ++ [0, 0, 0, 2] ++
    [0, 0, 0, 60] ++ List.replicate 16 0) ++
  [7, 8] ++
  (List.replicate 56 0 ++ [0, 0, 0, 0] ++ [0, 0, 0, 162] ++ [0, 0, 0, 0] ++
    [0, 0, 0, 162] ++ List.replicate 28 0)

/-- Object decoded from disjointInputA. -/
def disjointObjectA : EcoffObject :=
  { fileHeader := { f_magic := 9, f_nscns := 1, f_timdat := 0, f_symptr := 62,
                    f_nsyms := 0, f_opthdr := 0, f_flags := 0 },
    optionalHeader := none,
    sections := [({ s_name := List.replicate 8 0, s_paddr := 0, s_vaddr := 0,
                    s_size := 2, s_scnptr := 60, s_relptr := 0, s_lnnoptr := 0,
                    s_nreloc := 0, s_nlnno := 0, s_flags := 0 }, [7, 8])],
    symbolHeader :=
      { zeroSymbolHeader with cb_ss_offset := 162, cb_ss_ext_offset := 162 },
    localStrings := [], externalStrings := [] }

/-- Ten arbitrary bytes, shorter than the 20-byte file header. -/
def tenByteInput : List Nat := [9, 9, 9, 9, 9, 9, 9, 9, 9, 9]

/-- First section header of twoSectionInput: name 65 repeated, size 0, data
offset 100. -/
def twoSectionHdrA : EcoffSectionHeader :=
  { s_name := List.replicate 8 65, s_paddr := 0, s_vaddr := 0, s_size := 0,
    s_scnptr := 100, s_relptr := 0, s_lnnoptr := 0, s_nreloc := 0, s_nlnno := 0,
    s_flags := 0 }

/-- Second section header actually decoded from twoSectionInput, read from
byte 100: name 67 repeated, size 0, data offset 140. -/
def twoSectionHdrB : EcoffSectionHeader :=
  { s_name := List.replicate 8 67, s_paddr := 0, s_vaddr := 0, s_size := 0,
    s_scnptr := 140, s_relptr := 0, s_lnnoptr := 0, s_nreloc := 0, s_nlnno := 0,
    s_flags := 0 }

/-- Object decoded from twoSectionInput. -/
def twoSectionObject : EcoffObject :=
  { fileHeader := { f_magic := 1, f_nscns := 2, f_timdat := 0, f_symptr := 140,
                    f_nsyms := 0, f_opthdr := 0, f_flags := 0 },
    optionalHeader := none,
    sections := [(twoSectionHdrA, []), (twoSectionHdrB, [])],
    symbolHeader := zeroSymbolHeader,
    localStrings := [], externalStrings := [] }

/-- Section header declaring one byte of payload at data offset zero. -/
def oneByteSection : EcoffSectionHeader :=
  { s_name := List.replicate 8 0, s_paddr := 0, s_vaddr := 0, s_size := 1,
    s_scnptr := 0, s_relptr := 0, s_lnnoptr := 0, s_nreloc := 0, s_nlnno := 0,
    s_flags := 0 }

/-- Sample file header used to exercise the encoder round-trip. -/
def sampleFileHeader : EcoffFileHeader :=
  { f_magic := 354, f_nscns := 3, f_timdat := 305419896, f_symptr := 70000,
    f_nsyms := 9, f_opthdr := 56, f_flags := 515 }

set_option maxRecDepth 1000000
set_option maxHeartbeats 3200000

/-! ## Monad computation lemmas -/

/-- Running a bind of decoder computations. -/
theorem run_bind {α β : Type} (x : DecM α) (f : α → DecM β) (s : ReaderState) :
    (x >>= f) s = (x s).bind (fun p => f p.1 p.2) := rfl

/-- Running a pure decoder computation. -/
theorem run_pure {α : Type} (a : α) (s : ReaderState) :
    (pure a : DecM α) s = .ok (a, s) := rfl

/-- Binding a successful fallible value. -/
theorem ok_bind {α β : Type} (a : α) (f : α → Except DecodeError β) :
    (Except.ok a : Except DecodeError α).bind f = f a := rfl

/-- Binding a failed fallible value propagates the error unchanged. -/
theorem err_bind {α β : Type} (e : DecodeError) (f : α → Except DecodeError β) :
    (Except.error e : Except DecodeError α).bind f = .error e := rfl

/-- Running a primitive byte read. -/
theorem readBytes_run (n : Nat) (s : ReaderState) :
    readBytes n s = if n ≤ s.bytes.length - s.pos then
        .ok ((s.bytes.drop s.pos).take n, ⟨s.bytes, s.pos + n⟩)
      else .error (.truncatedInput n (s.bytes.length - s.pos)) := rfl

/-- Running a seek replaces the position and never fails. -/
theorem seekTo_run (off : Nat) (s : ReaderState) :
    seekTo off s = .ok ((), ⟨s.bytes, off⟩) := rfl

/-- Characterization of the 16-bit big-endian read. -/
theorem readU16BE_run (bytes : List Nat) (p : Nat) :
    readU16BE ⟨bytes, p⟩ = if 2 ≤ bytes.length - p then
        .ok (u16at bytes p, ⟨bytes, p + 2⟩)
      else .error (.truncatedInput 2 (bytes.length - p)) := by
  simp only [readU16BE, run_bind, readBytes_run, u16at]
  split <;> rfl

/-- Characterization of the 32-bit big-endian read. -/
theorem readU32BE_run (bytes : List Nat) (p : Nat) :
    readU32BE ⟨bytes, p⟩ = if 4 ≤ bytes.length - p then
        .ok (u32at bytes p, ⟨bytes, p + 4⟩)
      else .error (.truncatedInput 4 (bytes.length - p)) := by
  simp only [readU32BE, run_bind, readBytes_run, u32at]
  split <;> rfl

/-- Reducing one successful 16-bit field read at the head of a decoder. -/
theorem u16_step_ok {α : Type} (k : Nat → DecM α) (bytes : List Nat) (p : Nat)
    (h : 2 ≤ bytes.length - p) :
    (readU16BE >>= k) ⟨bytes, p⟩ = k (u16at bytes p) ⟨bytes, p + 2⟩ := by
  rw [run_bind, readU16BE_run, if_pos h]
  rfl

/-- Reducing one failing 16-bit field read at the head of a decoder. -/
theorem u16_step_err {α : Type} (k : Nat → DecM α) (bytes : List Nat) (p : Nat)
    (h : bytes.length - p < 2) :
    (readU16BE >>= k) ⟨bytes, p⟩ = .error (.truncatedInput 2 (bytes.length - p)) := by
  rw [run_bind, readU16BE_run, if_neg (by omega)]
  rfl

/-- Reducing one successful 32-bit field read at the head of a decoder. -/
theorem u32_step_ok {α : Type} (k : Nat → DecM α) (bytes : List Nat) (p : Nat)
    (h : 4 ≤ bytes.length - p) :
    (readU32BE >>= k) ⟨bytes, p⟩ = k (u32at bytes p) ⟨bytes, p + 4⟩ := by
  rw [run_bind, readU32BE_run, if_pos h]
  rfl

/-- Reducing one failing 32-bit field read at the head of a decoder. -/
theorem u32_step_err {α : Type} (k : Nat → DecM α) (bytes : List Nat) (p : Nat)
    (h : bytes.length - p < 4) :
    (readU32BE >>= k) ⟨bytes, p⟩ = .error (.truncatedInput 4 (bytes.length - p)) := by
  rw [run_bind, readU32BE_run, if_neg (by omega)]
  rfl

/-- Reducing one successful raw byte read at the head of a decoder. -/
theorem bytes_step_ok {α : Type} (k : List Nat → DecM α) (n : Nat) (bytes : List Nat)
    (p : Nat) (h : n ≤ bytes.length - p) :
    (readBytes n >>= k) ⟨bytes, p⟩ = k ((bytes.drop p).take n) ⟨bytes, p + n⟩ := by
  rw [run_bind, readBytes_run]
  simp only [if_pos h]
  rfl

/-- Reducing one failing raw byte read at the head of a decoder. -/
theorem bytes_step_err {α : Type} (k : List Nat → DecM α) (n : Nat) (bytes : List Nat)
    (p : Nat) (h : bytes.length - p < n) :
    (readBytes n >>= k) ⟨bytes, p⟩ = .error (.truncatedInput n (bytes.length - p)) := by
  rw [run_bind, readBytes_run]
  simp only [if_neg (by omega : ¬ n ≤ bytes.length - p)]
  rfl

/-- A field width within the available bytes passes the truncation scan. -/
theorem truncErr_cons_le (avail w : Nat) (ws : List Nat) (h : w ≤ avail) :
    truncErr avail (w :: ws) = truncErr (avail - w) ws := by
  simp only [truncErr, if_pos h]

/-- The first field width exceeding the available bytes is reported. -/
theorem truncErr_cons_lt (avail w : Nat) (ws : List Nat) (h : avail < w) :
    truncErr avail (w :: ws) = .truncatedInput w avail := by
  simp only [truncErr, if_neg (by omega : ¬ w ≤ avail)]

/-! ## Decoder characterizations -/

/-- The file header decoder consumes exactly the 20 bytes at the current
position, interpreting its fields big-endian in the fixed order, and fails
with the truncation error of the first field crossing the end of input. -/
theorem read_file_header_run (bytes : List Nat) (p : Nat) :
    read_file_header ⟨bytes, p⟩ =
      if p + 20 ≤ bytes.length then
        .ok (fileHeaderAt bytes p, ⟨bytes, p + 20⟩)
      else
        .error (truncErr (bytes.length - p) fileHeaderWidths) := by
  simp only [read_file_header]
  by_cases h1 : 2 ≤ bytes.length - p
  · rw [u16_step_ok _ _ _ h1]
    try simp only []
    by_cases h2 : 2 ≤ bytes.length - (p + 2)
    · rw [u16_step_ok _ _ _ h2]
      try simp only []
      by_cases h3 : 4 ≤ bytes.length - (p + 2 + 2)
      · rw [u32_step_ok _ _ _ h3]
        try simp only []
        by_cases h4 : 4 ≤ bytes.length - (p + 2 + 2 + 4)
        · rw [u32_step_ok _ _ _ h4]
          try simp only []
          by_cases h5 : 4 ≤ bytes.length - (p + 2 + 2 + 4 + 4)
          · rw [u32_step_ok _ _ _ h5]
            try simp only []
            by_cases h6 : 2 ≤ bytes.length - (p + 2 + 2 + 4 + 4 + 4)
            · rw [u16_step_ok _ _ _ h6]
              try simp only []
              by_cases h7 : 2 ≤ bytes.length - (p + 2 + 2 + 4 + 4 + 4 + 2)
              · rw [u16_step_ok _ _ _ h7]
                try simp only []
                rw [if_pos (show p + 20 ≤ bytes.length from by omega)]
                rfl
              · rw [u16_step_err _ _ _ (by omega)]
                rw [if_neg (show ¬ (p + 20 ≤ bytes.length) from by omega)]
                simp only [fileHeaderWidths]
                rw [truncErr_cons_le _ _ _ (by omega)]
                rw [truncErr_cons_le _ _ _ (by omega)]
                rw [truncErr_cons_le _ _ _ (by omega)]
                rw [truncErr_cons_le _ _ _ (by omega)]
                rw [truncErr_cons_le _ _ _ (by omega)]
                rw [truncErr_cons_le _ _ _ (by omega)]
                rw [truncErr_cons_lt _ _ _ (by omega)]
                try exact congrArg Except.error (congrArg (DecodeError.truncatedInput _) (by omega))
            · rw [u16_step_err _ _ _ (by omega)]
              rw [if_neg (show ¬ (p + 20 ≤ bytes.length) from by omega)]
              simp only [fileHeaderWidths]
              rw [truncErr_cons_le _ _ _ (by omega)]
              rw [truncErr_cons_le _ _ _ (by omega)]
              rw [truncErr_cons_le _ _ _ (by omega)]
              rw [truncErr_cons_le _ _ _ (by omega)]
              rw [truncErr_cons_le _ _ _ (by omega)]
              rw [truncErr_cons_lt _ _ _ (by omega)]
              try exact congrArg Except.error (congrArg (DecodeError.truncatedInput _) (by omega))
          · rw [u32_step_err _ _ _ (by omega)]
            rw [if_neg (show ¬ (p + 20 ≤ bytes.length) from by omega)]
            simp only [fileHeaderWidths]
            rw [truncErr_cons_le _ _ _ (by omega)]
            rw [truncErr_cons_le _ _ _ (by omega)]
            rw [truncErr_cons_le _ _ _ (by omega)]
            rw [truncErr_cons_le _ _ _ (by omega)]
            rw [truncErr_cons_lt _ _ _ (by omega)]
            try exact congrArg Except.error (congrArg (DecodeError.truncatedInput _) (by omega))
        · rw [u32_step_err _ _ _ (by omega)]
          rw [if_neg (show ¬ (p + 20 ≤ bytes.length) from by omega)]
          simp only [fileHeaderWidths]
          rw [truncErr_cons_le _ _ _ (by omega)]
          rw [truncErr_cons_le _ _ _ (by omega)]
          rw [truncErr_cons_le _ _ _ (by omega)]
          rw [truncErr_cons_lt _ _ _ (by omega)]
          try exact congrArg Except.error (congrArg (DecodeError.truncatedInput _) (by omega))
      · rw [u32_step_err _ _ _ (by omega)]
        rw [if_neg (show ¬ (p + 20 ≤ bytes.length) from by omega)]
        simp only [fileHeaderWidths]
        rw [truncErr_cons_le _ _ _ (by omega)]
        rw [truncErr_cons_le _ _ _ (by omega)]
        rw [truncErr_cons_lt _ _ _ (by omega)]
        try exact congrArg Except.error (congrArg (DecodeError.truncatedInput _) (by omega))
    · rw [u16_step_err _ _ _ (by omega)]
      rw [if_neg (show ¬ (p + 20 ≤ bytes.length) from by omega)]
      simp only [fileHeaderWidths]
      rw [truncErr_cons_le _ _ _ (by omega)]
      rw [truncErr_cons_lt _ _ _ (by omega)]
      try exact congrArg Except.error (congrArg (DecodeError.truncatedInput _) (by omega))
  · rw [u16_step_err _ _ _ (by omega)]
    rw [if_neg (show ¬ (p + 20 ≤ bytes.length) from by omega)]
    simp only [fileHeaderWidths]
    rw [truncErr_cons_lt _ _ _ (by omega)]
    try exact congrArg Except.error (congrArg (DecodeError.truncatedInput _) (by omega))

/-- The optional header decoder consumes exactly the 56 bytes at the current
position, big-endian and in fixed order. -/
theorem read_optional_header_run (bytes : List Nat) (p : Nat) :
    read_optional_header ⟨bytes, p⟩ =
      if p + 56 ≤ bytes.length then
        .ok (optionalHeaderAt bytes p, ⟨bytes, p + 56⟩)
      else
        .error (truncErr (bytes.length - p) optionalHeaderWidths) := by
  simp only [read_optional_header]
  by_cases h1 : 2 ≤ bytes.length - p
  · rw [u16_step_ok _ _ _ h1]
    try simp only []
    by_cases h2 : 2 ≤ bytes.length - (p + 2)
    · rw [u16_step_ok _ _ _ h2]
      try simp only []
      by_cases h3 : 4 ≤ bytes.length - (p + 2 + 2)
      · rw [u32_step_ok _ _ _ h3]
        try simp only []
        by_cases h4 : 4 ≤ bytes.length - (p + 2 + 2 + 4)
        · rw [u32_step_ok _ _ _ h4]
          try simp only []
          by_cases h5 : 4 ≤ bytes.length - (p + 2 + 2 + 4 + 4)
          · rw [u32_step_ok _ _ _ h5]
            try simp only []
            by_cases h6 : 4 ≤ bytes.length - (p + 2 + 2 + 4 + 4 + 4)
            · rw [u32_step_ok _ _ _ h6]
              try simp only []
              by_cases h7 : 4 ≤ bytes.length - (p + 2 + 2 + 4 + 4 + 4 + 4)
              · rw [u32_step_ok _ _ _ h7]
                try simp only []
                by_cases h8 : 4 ≤ bytes.length - (p + 2 + 2 + 4 + 4 + 4 + 4 + 4)
                · rw [u32_step_ok _ _ _ h8]
                  try simp only []
                  by_cases h9 : 4 ≤ bytes.length - (p + 2 + 2 + 4 + 4 + 4 + 4 + 4 + 4)
                  · rw [u32_step_ok _ _ _ h9]
                    try simp only []
                    by_cases h10 : 4 ≤ bytes.length - (p + 2 + 2 + 4 + 4 + 4 + 4 + 4 + 4 + 4)
                    · rw [u32_step_ok _ _ _ h10]
                      try simp only []
                      by_cases h11 : 4 ≤ bytes.length - (p + 2 + 2 + 4 + 4 + 4 + 4 + 4 + 4 + 4 + 4)
                      · rw [u32_step_ok _ _ _ h11]
                        try simp only []
                        by_cases h12 : 4 ≤ bytes.length - (p + 2 + 2 + 4 + 4 + 4 + 4 + 4 + 4 + 4 + 4 + 4)
                        · rw [u32_step_ok _ _ _ h12]
                          try simp only []
                          by_cases h13 : 4 ≤ bytes.length - (p + 2 + 2 + 4 + 4 + 4 + 4 + 4 + 4 + 4 + 4 + 4 + 4)
                          · rw [u32_step_ok _ _ _ h13]
                            try simp only []
                            by_cases h14 : 4 ≤ bytes.length - (p + 2 + 2 + 4 + 4 + 4 + 4 + 4 + 4 + 4 + 4 + 4 + 4 + 4)
                            · rw [u32_step_ok _ _ _ h14]
                              try simp only []
                              by_cases h15 : 4 ≤ bytes.length - (p + 2 + 2 + 4 + 4 + 4 + 4 + 4 + 4 + 4 + 4 + 4 + 4 + 4 + 4)
                              · rw [u32_step_ok _ _ _ h15]
                                try simp only []
                                rw [if_pos (show p + 56 ≤ bytes.length from by omega)]
                                rfl
                              · rw [u32_step_err _ _ _ (by omega)]
                                rw [if_neg (show ¬ (p + 56 ≤ bytes.length) from by omega)]
                                simp only [optionalHeaderWidths]
                                rw [truncErr_cons_le _ _ _ (by omega)]
                                rw [truncErr_cons_le _ _ _ (by omega)]
                                rw [truncErr_cons_le _ _ _ (by omega)]
                                rw [truncErr_cons_le _ _ _ (by omega)]
                                rw [truncErr_cons_le _ _ _ (by omega)]
                                rw [truncErr_cons_le _ _ _ (by omega)]
                                rw [truncErr_cons_le _ _ _ (by omega)]
                                rw [truncErr_cons_le _ _ _ (by omega)]
                                rw [truncErr_cons_le _ _ _ (by omega)]
                                rw [truncErr_cons_le _ _ _ (by omega)]
                                rw [truncErr_cons_le _ _ _ (by omega)]
                                rw [truncErr_cons_le _ _ _ (by omega)]
                                rw [truncErr_cons_le _ _ _ (by omega)]
                                rw [truncErr_cons_le _ _ _ (by omega)]
                                rw [truncErr_cons_lt _ _ _ (by omega)]
                                try exact congrArg Except.error (congrArg (DecodeError.truncatedInput _) (by omega))
                            · rw [u32_step_err _ _ _ (by omega)]
                              rw [if_neg (show ¬ (p + 56 ≤ bytes.length) from by omega)]
                              simp only [optionalHeaderWidths]
                              rw [truncErr_cons_le _ _ _ (by omega)]
                              rw [truncErr_cons_le _ _ _ (by omega)]
                              rw [truncErr_cons_le _ _ _ (by omega)]
                              rw [truncErr_cons_le _ _ _ (by omega)]
                              rw [truncErr_cons_le _ _ _ (by omega)]
                              rw [truncErr_cons_le _ _ _ (by omega)]
                              rw [truncErr_cons_le _ _ _ (by omega)]
                              rw [truncErr_cons_le _ _ _ (by omega)]
                              rw [truncErr_cons_le _ _ _ (by omega)]
                              rw [truncErr_cons_le _ _ _ (by omega)]
                              rw [truncErr_cons_le _ _ _ (by omega)]
                              rw [truncErr_cons_le _ _ _ (by omega)]
                              rw [truncErr_cons_le _ _ _ (by omega)]
                              rw [truncErr_cons_lt _ _ _ (by omega)]
                              try exact congrArg Except.error (congrArg (DecodeError.truncatedInput _) (by omega))
                          · rw [u32_step_err _ _ _ (by omega)]
                            rw [if_neg (show ¬ (p + 56 ≤ bytes.length) from by omega)]
                            simp only [optionalHeaderWidths]
                            rw [truncErr_cons_le _ _ _ (by omega)]
                            rw [truncErr_cons_le _ _ _ (by omega)]
                            rw [truncErr_cons_le _ _ _ (by omega)]
                            rw [truncErr_cons_le _ _ _ (by omega)]
                            rw [truncErr_cons_le _ _ _ (by omega)]
                            rw [truncErr_cons_le _ _ _ (by omega)]
                            rw [truncErr_cons_le _ _ _ (by omega)]
                            rw [truncErr_cons_le _ _ _ (by omega)]
                            rw [truncErr_cons_le _ _ _ (by omega)]
                            rw [truncErr_cons_le _ _ _ (by omega)]
                            rw [truncErr_cons_le _ _ _ (by omega)]
                            rw [truncErr_cons_le _ _ _ (by omega)]
                            rw [truncErr_cons_lt _ _ _ (by omega)]
                            try exact congrArg Except.error (congrArg (DecodeError.truncatedInput _) (by omega))
                        · rw [u32_step_err _ _ _ (by omega)]
                          rw [if_neg (show ¬ (p + 56 ≤ bytes.length) from by omega)]
                          simp only [optionalHeaderWidths]
                          rw [truncErr_cons_le _ _ _ (by omega)]
                          rw [truncErr_cons_le _ _ _ (by omega)]
                          rw [truncErr_cons_le _ _ _ (by omega)]
                          rw [truncErr_cons_le _ _ _ (by omega)]
                          rw [truncErr_cons_le _ _ _ (by omega)]
                          rw [truncErr_cons_le _ _ _ (by omega)]
                          rw [truncErr_cons_le _ _ _ (by omega)]
                          rw [truncErr_cons_le _ _ _ (by omega)]
                          rw [truncErr_cons_le _ _ _ (by omega)]
                          rw [truncErr_cons_le _ _ _ (by omega)]
                          rw [truncErr_cons_le _ _ _ (by omega)]
                          rw [truncErr_cons_lt _ _ _ (by omega)]
                          try exact congrArg Except.error (congrArg (DecodeError.truncatedInput _) (by omega))
                      · rw [u32_step_err _ _ _ (by omega)]
                        rw [if_neg (show ¬ (p + 56 ≤ bytes.length) from by omega)]
                        simp only [optionalHeaderWidths]
                        rw [truncErr_cons_le _ _ _ (by omega)]
                        rw [truncErr_cons_le _ _ _ (by omega)]
                        rw [truncErr_cons_le _ _ _ (by omega)]
                        rw [truncErr_cons_le _ _ _ (by omega)]
                        rw [truncErr_cons_le _ _ _ (by omega)]
                        rw [truncErr_cons_le _ _ _ (by omega)]
                        rw [truncErr_cons_le _ _ _ (by omega)]
                        rw [truncErr_cons_le _ _ _ (by omega)]
                        rw [truncErr_cons_le _ _ _ (by omega)]
                        rw [truncErr_cons_le _ _ _ (by omega)]
                        rw [truncErr_cons_lt _ _ _ (by omega)]
                        try exact congrArg Except.error (congrArg (DecodeError.truncatedInput _) (by omega))
                    · rw [u32_step_err _ _ _ (by omega)]
                      rw [if_neg (show ¬ (p + 56 ≤ bytes.length) from by omega)]
                      simp only [optionalHeaderWidths]
                      rw [truncErr_cons_le _ _ _ (by omega)]
                      rw [truncErr_cons_le _ _ _ (by omega)]
                      rw [truncErr_cons_le _ _ _ (by omega)]
                      rw [truncErr_cons_le _ _ _ (by omega)]
                      rw [truncErr_cons_le _ _ _ (by omega)]
                      rw [truncErr_cons_le _ _ _ (by omega)]
                      rw [truncErr_cons_le _ _ _ (by omega)]
                      rw [truncErr_cons_le _ _ _ (by omega)]
                      rw [truncErr_cons_le _ _ _ (by omega)]
                      rw [truncErr_cons_lt _ _ _ (by omega)]
                      try exact congrArg Except.error (congrArg (DecodeError.truncatedInput _) (by omega))
                  · rw [u32_step_err _ _ _ (by omega)]
                    rw [if_neg (show ¬ (p + 56 ≤ bytes.length) from by omega)]
                    simp only [optionalHeaderWidths]
                    rw [truncErr_cons_le _ _ _ (by omega)]
                    rw [truncErr_cons_le _ _ _ (by omega)]
                    rw [truncErr_cons_le _ _ _ (by omega)]
                    rw [truncErr_cons_le _ _ _ (by omega)]
                    rw [truncErr_cons_le _ _ _ (by omega)]
                    rw [truncErr_cons_le _ _ _ (by omega)]
                    rw [truncErr_cons_le _ _ _ (by omega)]
                    rw [truncErr_cons_le _ _ _ (by omega)]
                    rw [truncErr_cons_lt _ _ _ (by omega)]
                    try exact congrArg Except.error (congrArg (DecodeError.truncatedInput _) (by omega))
                · rw [u32_step_err _ _ _ (by omega)]
                  rw [if_neg (show ¬ (p + 56 ≤ bytes.length) from by omega)]
                  simp only [optionalHeaderWidths]
                  rw [truncErr_cons_le _ _ _ (by omega)]
                  rw [truncErr_cons_le _ _ _ (by omega)]
                  rw [truncErr_cons_le _ _ _ (by omega)]
                  rw [truncErr_cons_le _ _ _ (by omega)]
                  rw [truncErr_cons_le _ _ _ (by omega)]
                  rw [truncErr_cons_le _ _ _ (by omega)]
                  rw [truncErr_cons_le _ _ _ (by omega)]
                  rw [truncErr_cons_lt _ _ _ (by omega)]
                  try exact congrArg Except.error (congrArg (DecodeError.truncatedInput _) (by omega))
              · rw [u32_step_err _ _ _ (by omega)]
                rw [if_neg (show ¬ (p + 56 ≤ bytes.length) from by omega)]
                simp only [optionalHeaderWidths]
                rw [truncErr_cons_le _ _ _ (by omega)]
                rw [truncErr_cons_le _ _ _ (by omega)]
                rw [truncErr_cons_le _ _ _ (by omega)]
                rw [truncErr_cons_le _ _ _ (by omega)]
                rw [truncErr_cons_le _ _ _ (by omega)]
                rw [truncErr_cons_le _ _ _ (by omega)]
                rw [truncErr_cons_lt _ _ _ (by omega)]
                try exact congrArg Except.error (congrArg (DecodeError.truncatedInput _) (by omega))
            · rw [u32_step_err _ _ _ (by omega)]
              rw [if_neg (show ¬ (p + 56 ≤ bytes.length) from by omega)]
              simp only [optionalHeaderWidths]
              rw [truncErr_cons_le _ _ _ (by omega)]
              rw [truncErr_cons_le _ _ _ (by omega)]
              rw [truncErr_cons_le _ _ _ (by omega)]
              rw [truncErr_cons_le _ _ _ (by omega)]
              rw [truncErr_cons_le _ _ _ (by omega)]
              rw [truncErr_cons_lt _ _ _ (by omega)]
              try exact congrArg Except.error (congrArg (DecodeError.truncatedInput _) (by omega))
          · rw [u32_step_err _ _ _ (by omega)]
            rw [if_neg (show ¬ (p + 56 ≤ bytes.length) from by omega)]
            simp only [optionalHeaderWidths]
            rw [truncErr_cons_le _ _ _ (by omega)]
            rw [truncErr_cons_le _ _ _ (by omega)]
            rw [truncErr_cons_le _ _ _ (by omega)]
            rw [truncErr_cons_le _ _ _ (by omega)]
            rw [truncErr_cons_lt _ _ _ (by omega)]
            try exact congrArg Except.error (congrArg (DecodeError.truncatedInput _) (by omega))
        · rw [u32_step_err _ _ _ (by omega)]
          rw [if_neg (show ¬ (p + 56 ≤ bytes.length) from by omega)]
          simp only [optionalHeaderWidths]
          rw [truncErr_cons_le _ _ _ (by omega)]
          rw [truncErr_cons_le _ _ _ (by omega)]
          rw [truncErr_cons_le _ _ _ (by omega)]
          rw [truncErr_cons_lt _ _ _ (by omega)]
          try exact congrArg Except.error (congrArg (DecodeError.truncatedInput _) (by omega))
      · rw [u32_step_err _ _ _ (by omega)]
        rw [if_neg (show ¬ (p + 56 ≤ bytes.length) from by omega)]
        simp only [optionalHeaderWidths]
        rw [truncErr_cons_le _ _ _ (by omega)]
        rw [truncErr_cons_le _ _ _ (by omega)]
        rw [truncErr_cons_lt _ _ _ (by omega)]
        try exact congrArg Except.error (congrArg (DecodeError.truncatedInput _) (by omega))
    · rw [u16_step_err _ _ _ (by omega)]
      rw [if_neg (show ¬ (p + 56 ≤ bytes.length) from by omega)]
      simp only [optionalHeaderWidths]
      rw [truncErr_cons_le _ _ _ (by omega)]
      rw [truncErr_cons_lt _ _ _ (by omega)]
      try exact congrArg Except.error (congrArg (DecodeError.truncatedInput _) (by omega))
  · rw [u16_step_err _ _ _ (by omega)]
    rw [if_neg (show ¬ (p + 56 ≤ bytes.length) from by omega)]
    simp only [optionalHeaderWidths]
    rw [truncErr_cons_lt _ _ _ (by omega)]
    try exact congrArg Except.error (congrArg (DecodeError.truncatedInput _) (by omega))

/-- The section header decoder consumes exactly the 40 bytes at the current
position: eight opaque name bytes then the numeric fields. -/
theorem read_section_header_run (bytes : List Nat) (p : Nat) :
    read_section_header ⟨bytes, p⟩ =
      if p + 40 ≤ bytes.length then
        .ok (sectionHeaderAt bytes p, ⟨bytes, p + 40⟩)
      else
        .error (truncErr (bytes.length - p) sectionHeaderWidths) := by
  simp only [read_section_header]
  by_cases h1 : 8 ≤ bytes.length - p
  · rw [bytes_step_ok _ _ _ _ h1]
    try simp only []
    by_cases h2 : 4 ≤ bytes.length - (p + 8)
    · rw [u32_step_ok _ _ _ h2]
      try simp only []
      by_cases h3 : 4 ≤ bytes.length - (p + 8 + 4)
      · rw [u32_step_ok _ _ _ h3]
        try simp only []
        by_cases h4 : 4 ≤ bytes.length - (p + 8 + 4 + 4)
        · rw [u32_step_ok _ _ _ h4]
          try simp only []
          by_cases h5 : 4 ≤ bytes.length - (p + 8 + 4 + 4 + 4)
          · rw [u32_step_ok _ _ _ h5]
            try simp only []
            by_cases h6 : 4 ≤ bytes.length - (p + 8 + 4 + 4 + 4 + 4)
            · rw [u32_step_ok _ _ _ h6]
              try simp only []
              by_cases h7 : 4 ≤ bytes.length - (p + 8 + 4 + 4 + 4 + 4 + 4)
              · rw [u32_step_ok _ _ _ h7]
                try simp only []
                by_cases h8 : 2 ≤ bytes.length - (p + 8 + 4 + 4 + 4 + 4 + 4 + 4)
                · rw [u16_step_ok _ _ _ h8]
                  try simp only []
                  by_cases h9 : 2 ≤ bytes.length - (p + 8 + 4 + 4 + 4 + 4 + 4 + 4 + 2)
                  · rw [u16_step_ok _ _ _ h9]
                    try simp only []
                    by_cases h10 : 4 ≤ bytes.length - (p + 8 + 4 + 4 + 4 + 4 + 4 + 4 + 2 + 2)
                    · rw [u32_step_ok _ _ _ h10]
                      try simp only []
                      rw [if_pos (show p + 40 ≤ bytes.length from by omega)]
                      rfl
                    · rw [u32_step_err _ _ _ (by omega)]
                      rw [if_neg (show ¬ (p + 40 ≤ bytes.length) from by omega)]
                      simp only [sectionHeaderWidths]
                      rw [truncErr_cons_le _ _ _ (by omega)]
                      rw [truncErr_cons_le _ _ _ (by omega)]
                      rw [truncErr_cons_le _ _ _ (by omega)]
                      rw [truncErr_cons_le _ _ _ (by omega)]
                      rw [truncErr_cons_le _ _ _ (by omega)]
                      rw [truncErr_cons_le _ _ _ (by omega)]
                      rw [truncErr_cons_le _ _ _ (by omega)]
                      rw [truncErr_cons_le _ _ _ (by omega)]
                      rw [truncErr_cons_le _ _ _ (by omega)]
                      rw [truncErr_cons_lt _ _ _ (by omega)]
                      try exact congrArg Except.error (congrArg (DecodeError.truncatedInput _) (by omega))
                  · rw [u16_step_err _ _ _ (by omega)]
                    rw [if_neg (show ¬ (p + 40 ≤ bytes.length) from by omega)]
                    simp only [sectionHeaderWidths]
                    rw [truncErr_cons_le _ _ _ (by omega)]
                    rw [truncErr_cons_le _ _ _ (by omega)]
                    rw [truncErr_cons_le _ _ _ (by omega)]
                    rw [truncErr_cons_le _ _ _ (by omega)]
                    rw [truncErr_cons_le _ _ _ (by omega)]
                    rw [truncErr_cons_le _ _ _ (by omega)]
                    rw [truncErr_cons_le _ _ _ (by omega)]
                    rw [truncErr_cons_le _ _ _ (by omega)]
                    rw [truncErr_cons_lt _ _ _ (by omega)]
                    try exact congrArg Except.error (congrArg (DecodeError.truncatedInput _) (by omega))
                · rw [u16_step_err _ _ _ (by omega)]
                  rw [if_neg (show ¬ (p + 40 ≤ bytes.length) from by omega)]
                  simp only [sectionHeaderWidths]
                  rw [truncErr_cons_le _ _ _ (by omega)]
                  rw [truncErr_cons_le _ _ _ (by omega)]
                  rw [truncErr_cons_le _ _ _ (by omega)]
                  rw [truncErr_cons_le _ _ _ (by omega)]
                  rw [truncErr_cons_le _ _ _ (by omega)]
                  rw [truncErr_cons_le _ _ _ (by omega)]
                  rw [truncErr_cons_le _ _ _ (by omega)]
                  rw [truncErr_cons_lt _ _ _ (by omega)]
                  try exact congrArg Except.error (congrArg (DecodeError.truncatedInput _) (by omega))
              · rw [u32_step_err _ _ _ (by omega)]
                rw [if_neg (show ¬ (p + 40 ≤ bytes.length) from by omega)]
                simp only [sectionHeaderWidths]
                rw [truncErr_cons_le _ _ _ (by omega)]
                rw [truncErr_cons_le _ _ _ (by omega)]
                rw [truncErr_cons_le _ _ _ (by omega)]
                rw [truncErr_cons_le _ _ _ (by omega)]
                rw [truncErr_cons_le _ _ _ (by omega)]
                rw [truncErr_cons_le _ _ _ (by omega)]
                rw [truncErr_cons_lt _ _ _ (by omega)]
                try exact congrArg Except.error (congrArg (DecodeError.truncatedInput _) (by omega))
            · rw [u32_step_err _ _ _ (by omega)]
              rw [if_neg (show ¬ (p + 40 ≤ bytes.length) from by omega)]
              simp only [sectionHeaderWidths]
              rw [truncErr_cons_le _ _ _ (by omega)]
              rw [truncErr_cons_le _ _ _ (by omega)]
              rw [truncErr_cons_le _ _ _ (by omega)]
              rw [truncErr_cons_le _ _ _ (by omega)]
              rw [truncErr_cons_le _ _ _ (by omega)]
              rw [truncErr_cons_lt _ _ _ (by omega)]
              try exact congrArg Except.error (congrArg (DecodeError.truncatedInput _) (by omega))
          · rw [u32_step_err _ _ _ (by omega)]
            rw [if_neg (show ¬ (p + 40 ≤ bytes.length) from by omega)]
            simp only [sectionHeaderWidths]
            rw [truncErr_cons_le _ _ _ (by omega)]
            rw [truncErr_cons_le _ _ _ (by omega)]
            rw [truncErr_cons_le _ _ _ (by omega)]
            rw [truncErr_cons_le _ _ _ (by omega)]
            rw [truncErr_cons_lt _ _ _ (by omega)]
            try exact congrArg Except.error (congrArg (DecodeError.truncatedInput _) (by omega))
        · rw [u32_step_err _ _ _ (by omega)]
          rw [if_neg (show ¬ (p + 40 ≤ bytes.length) from by omega)]
          simp only [sectionHeaderWidths]
          rw [truncErr_cons_le _ _ _ (by omega)]
          rw [truncErr_cons_le _ _ _ (by omega)]
          rw [truncErr_cons_le _ _ _ (by omega)]
          rw [truncErr_cons_lt _ _ _ (by omega)]
          try exact congrArg Except.error (congrArg (DecodeError.truncatedInput _) (by omega))
      · rw [u32_step_err _ _ _ (by omega)]
        rw [if_neg (show ¬ (p + 40 ≤ bytes.length) from by omega)]
        simp only [sectionHeaderWidths]
        rw [truncErr_cons_le _ _ _ (by omega)]
        rw [truncErr_cons_le _ _ _ (by omega)]
        rw [truncErr_cons_lt _ _ _ (by omega)]
        try exact congrArg Except.error (congrArg (DecodeError.truncatedInput _) (by omega))
    · rw [u32_step_err _ _ _ (by omega)]
      rw [if_neg (show ¬ (p + 40 ≤ bytes.length) from by omega)]
      simp only [sectionHeaderWidths]
      rw [truncErr_cons_le _ _ _ (by omega)]
      rw [truncErr_cons_lt _ _ _ (by omega)]
      try exact congrArg Except.error (congrArg (DecodeError.truncatedInput _) (by omega))
  · rw [bytes_step_err _ _ _ _ (by omega)]
    rw [if_neg (show ¬ (p + 40 ≤ bytes.length) from by omega)]
    simp only [sectionHeaderWidths]
    rw [truncErr_cons_lt _ _ _ (by omega)]
    try exact congrArg Except.error (congrArg (DecodeError.truncatedInput _) (by omega))

/-- The symbolic header decoder consumes exactly the 96 bytes at the current
position, big-endian and in fixed order. -/
theorem read_symbol_header_run (bytes : List Nat) (p : Nat) :
    read_symbol_header ⟨bytes, p⟩ =
      if p + 96 ≤ bytes.length then
        .ok (symbolHeaderAt bytes p, ⟨bytes, p + 96⟩)
      else
        .error (truncErr (bytes.length - p) symbolHeaderWidths) := by
  simp only [read_symbol_header]
  by_cases h1 : 2 ≤ bytes.length - p
  · rw [u16_step_ok _ _ _ h1]
    try simp only []
    by_cases h2 : 2 ≤ bytes.length - (p + 2)
    · rw [u16_step_ok _ _ _ h2]
      try simp only []
      by_cases h3 : 4 ≤ bytes.length - (p + 2 + 2)
      · rw [u32_step_ok _ _ _ h3]
        try simp only []
        by_cases h4 : 4 ≤ bytes.length - (p + 2 + 2 + 4)
        · rw [u32_step_ok _ _ _ h4]
          try simp only []
          by_cases h5 : 4 ≤ bytes.length - (p + 2 + 2 + 4 + 4)
          · rw [u32_step_ok _ _ _ h5]
            try simp only []
            by_cases h6 : 4 ≤ bytes.length - (p + 2 + 2 + 4 + 4 + 4)
            · rw [u32_step_ok _ _ _ h6]
              try simp only []
              by_cases h7 : 4 ≤ bytes.length - (p + 2 + 2 + 4 + 4 + 4 + 4)
              · rw [u32_step_ok _ _ _ h7]
                try simp only []
                by_cases h8 : 4 ≤ bytes.length - (p + 2 + 2 + 4 + 4 + 4 + 4 + 4)
                · rw [u32_step_ok _ _ _ h8]
                  try simp only []
                  by_cases h9 : 4 ≤ bytes.length - (p + 2 + 2 + 4 + 4 + 4 + 4 + 4 + 4)
                  · rw [u32_step_ok _ _ _ h9]
                    try simp only []
                    by_cases h10 : 4 ≤ bytes.length - (p + 2 + 2 + 4 + 4 + 4 + 4 + 4 + 4 + 4)
                    · rw [u32_step_ok _ _ _ h10]
                      try simp only []
                      by_cases h11 : 4 ≤ bytes.length - (p + 2 + 2 + 4 + 4 + 4 + 4 + 4 + 4 + 4 + 4)
                      · rw [u32_step_ok _ _ _ h11]
                        try simp only []
                        by_cases h12 : 4 ≤ bytes.length - (p + 2 + 2 + 4 + 4 + 4 + 4 + 4 + 4 + 4 + 4 + 4)
                        · rw [u32_step_ok _ _ _ h12]
                          try simp only []
                          by_cases h13 : 4 ≤ bytes.length - (p + 2 + 2 + 4 + 4 + 4 + 4 + 4 + 4 + 4 + 4 + 4 + 4)
                          · rw [u32_step_ok _ _ _ h13]
                            try simp only []
                            by_cases h14 : 4 ≤ bytes.length - (p + 2 + 2 + 4 + 4 + 4 + 4 + 4 + 4 + 4 + 4 + 4 + 4 + 4)
                            · rw [u32_step_ok _ _ _ h14]
                              try simp only []
                              by_cases h15 : 4 ≤ bytes.length - (p + 2 + 2 + 4 + 4 + 4 + 4 + 4 + 4 + 4 + 4 + 4 + 4 + 4 + 4)
                              · rw [u32_step_ok _ _ _ h15]
                                try simp only []
                                by_cases h16 : 4 ≤ bytes.length - (p + 2 + 2 + 4 + 4 + 4 + 4 + 4 + 4 + 4 + 4 + 4 + 4 + 4 + 4 + 4)
                                · rw [u32_step_ok _ _ _ h16]
                                  try simp only []
                                  by_cases h17 : 4 ≤ bytes.length - (p + 2 + 2 + 4 + 4 + 4 + 4 + 4 + 4 + 4 + 4 + 4 + 4 + 4 + 4 + 4 + 4)
                                  · rw [u32_step_ok _ _ _ h17]
                                    try simp only []
                                    by_cases h18 : 4 ≤ bytes.length - (p + 2 + 2 + 4 + 4 + 4 + 4 + 4 + 4 + 4 + 4 + 4 + 4 + 4 + 4 + 4 + 4 + 4)
                                    · rw [u32_step_ok _ _ _ h18]
                                      try simp only []
                                      by_cases h19 : 4 ≤ bytes.length - (p + 2 + 2 + 4 + 4 + 4 + 4 + 4 + 4 + 4 + 4 + 4 + 4 + 4 + 4 + 4 + 4 + 4 + 4)
                                      · rw [u32_step_ok _ _ _ h19]
                                        try simp only []
                                        by_cases h20 : 4 ≤ bytes.length - (p + 2 + 2 + 4 + 4 + 4 + 4 + 4 + 4 + 4 + 4 + 4 + 4 + 4 + 4 + 4 + 4 + 4 + 4 + 4)
                                        · rw [u32_step_ok _ _ _ h20]
                                          try simp only []
                                          by_cases h21 : 4 ≤ bytes.length - (p + 2 + 2 + 4 + 4 + 4 + 4 + 4 + 4 + 4 + 4 + 4 + 4 + 4 + 4 + 4 + 4 + 4 + 4 + 4 + 4)
                                          · rw [u32_step_ok _ _ _ h21]
                                            try simp only []
                                            by_cases h22 : 4 ≤ bytes.length - (p + 2 + 2 + 4 + 4 + 4 + 4 + 4 + 4 + 4 + 4 + 4 + 4 + 4 + 4 + 4 + 4 + 4 + 4 + 4 + 4 + 4)
                                            · rw [u32_step_ok _ _ _ h22]
                                              try simp only []
                                              by_cases h23 : 4 ≤ bytes.length - (p + 2 + 2 + 4 + 4 + 4 + 4 + 4 + 4 + 4 + 4 + 4 + 4 + 4 + 4 + 4 + 4 + 4 + 4 + 4 + 4 + 4 + 4)
                                              · rw [u32_step_ok _ _ _ h23]
                                                try simp only []
                                                by_cases h24 : 4 ≤ bytes.length - (p + 2 + 2 + 4 + 4 + 4 + 4 + 4 + 4 + 4 + 4 + 4 + 4 + 4 + 4 + 4 + 4 + 4 + 4 + 4 + 4 + 4 + 4 + 4)
                                                · rw [u32_step_ok _ _ _ h24]
                                                  try simp only []
                                                  by_cases h25 : 4 ≤ bytes.length - (p + 2 + 2 + 4 + 4 + 4 + 4 + 4 + 4 + 4 + 4 + 4 + 4 + 4 + 4 + 4 + 4 + 4 + 4 + 4 + 4 + 4 + 4 + 4 + 4)
                                                  · rw [u32_step_ok _ _ _ h25]
                                                    try simp only []
                                                    rw [if_pos (show p + 96 ≤ bytes.length from by omega)]
                                                    rfl
                                                  · rw [u32_step_err _ _ _ (by omega)]
                                                    rw [if_neg (show ¬ (p + 96 ≤ bytes.length) from by omega)]
                                                    simp only [symbolHeaderWidths]
                                                    rw [truncErr_cons_le _ _ _ (by omega)]
                                                    rw [truncErr_cons_le _ _ _ (by omega)]
                                                    rw [truncErr_cons_le _ _ _ (by omega)]
                                                    rw [truncErr_cons_le _ _ _ (by omega)]
                                                    rw [truncErr_cons_le _ _ _ (by omega)]
                                                    rw [truncErr_cons_le _ _ _ (by omega)]
                                                    rw [truncErr_cons_le _ _ _ (by omega)]
                                                    rw [truncErr_cons_le _ _ _ (by omega)]
                                                    rw [truncErr_cons_le _ _ _ (by omega)]
                                                    rw [truncErr_cons_le _ _ _ (by omega)]
                                                    rw [truncErr_cons_le _ _ _ (by omega)]
                                                    rw [truncErr_cons_le _ _ _ (by omega)]
                                                    rw [truncErr_cons_le _ _ _ (by omega)]
                                                    rw [truncErr_cons_le _ _ _ (by omega)]
                                                    rw [truncErr_cons_le _ _ _ (by omega)]
                                                    rw [truncErr_cons_le _ _ _ (by omega)]
                                                    rw [truncErr_cons_le _ _ _ (by omega)]
                                                    rw [truncErr_cons_le _ _ _ (by omega)]
                                                    rw [truncErr_cons_le _ _ _ (by omega)]
                                                    rw [truncErr_cons_le _ _ _ (by omega)]
                                                    rw [truncErr_cons_le _ _ _ (by omega)]
                                                    rw [truncErr_cons_le _ _ _ (by omega)]
                                                    rw [truncErr_cons_le _ _ _ (by omega)]
                                                    rw [truncErr_cons_le _ _ _ (by omega)]
                                                    rw [truncErr_cons_lt _ _ _ (by omega)]
                                                    try exact congrArg Except.error (congrArg (DecodeError.truncatedInput _) (by omega))
                                                · rw [u32_step_err _ _ _ (by omega)]
                                                  rw [if_neg (show ¬ (p + 96 ≤ bytes.length) from by omega)]
                                                  simp only [symbolHeaderWidths]
                                                  rw [truncErr_cons_le _ _ _ (by omega)]
                                                  rw [truncErr_cons_le _ _ _ (by omega)]
                                                  rw [truncErr_cons_le _ _ _ (by omega)]
                                                  rw [truncErr_cons_le _ _ _ (by omega)]
                                                  rw [truncErr_cons_le _ _ _ (by omega)]
                                                  rw [truncErr_cons_le _ _ _ (by omega)]
                                                  rw [truncErr_cons_le _ _ _ (by omega)]
                                                  rw [truncErr_cons_le _ _ _ (by omega)]
                                                  rw [truncErr_cons_le _ _ _ (by omega)]
                                                  rw [truncErr_cons_le _ _ _ (by omega)]
                                                  rw [truncErr_cons_le _ _ _ (by omega)]
                                                  rw [truncErr_cons_le _ _ _ (by omega)]
                                                  rw [truncErr_cons_le _ _ _ (by omega)]
                                                  rw [truncErr_cons_le _ _ _ (by omega)]
                                                  rw [truncErr_cons_le _ _ _ (by omega)]
                                                  rw [truncErr_cons_le _ _ _ (by omega)]
                                                  rw [truncErr_cons_le _ _ _ (by omega)]
                                                  rw [truncErr_cons_le _ _ _ (by omega)]
                                                  rw [truncErr_cons_le _ _ _ (by omega)]
                                                  rw [truncErr_cons_le _ _ _ (by omega)]
                                                  rw [truncErr_cons_le _ _ _ (by omega)]
                                                  rw [truncErr_cons_le _ _ _ (by omega)]
                                                  rw [truncErr_cons_le _ _ _ (by omega)]
                                                  rw [truncErr_cons_lt _ _ _ (by omega)]
                                                  try exact congrArg Except.error (congrArg (DecodeError.truncatedInput _) (by omega))
                                              · rw [u32_step_err _ _ _ (by omega)]
                                                rw [if_neg (show ¬ (p + 96 ≤ bytes.length) from by omega)]
                                                simp only [symbolHeaderWidths]
                                                rw [truncErr_cons_le _ _ _ (by omega)]
                                                rw [truncErr_cons_le _ _ _ (by omega)]
                                                rw [truncErr_cons_le _ _ _ (by omega)]
                                                rw [truncErr_cons_le _ _ _ (by omega)]
                                                rw [truncErr_cons_le _ _ _ (by omega)]
                                                rw [truncErr_cons_le _ _ _ (by omega)]
                                                rw [truncErr_cons_le _ _ _ (by omega)]
                                                rw [truncErr_cons_le _ _ _ (by omega)]
                                                rw [truncErr_cons_le _ _ _ (by omega)]
                                                rw [truncErr_cons_le _ _ _ (by omega)]
                                                rw [truncErr_cons_le _ _ _ (by omega)]
                                                rw [truncErr_cons_le _ _ _ (by omega)]
                                                rw [truncErr_cons_le _ _ _ (by omega)]
                                                rw [truncErr_cons_le _ _ _ (by omega)]
                                                rw [truncErr_cons_le _ _ _ (by omega)]
                                                rw [truncErr_cons_le _ _ _ (by omega)]
                                                rw [truncErr_cons_le _ _ _ (by omega)]
                                                rw [truncErr_cons_le _ _ _ (by omega)]
                                                rw [truncErr_cons_le _ _ _ (by omega)]
                                                rw [truncErr_cons_le _ _ _ (by omega)]
                                                rw [truncErr_cons_le _ _ _ (by omega)]
                                                rw [truncErr_cons_le _ _ _ (by omega)]
                                                rw [truncErr_cons_lt _ _ _ (by omega)]
                                                try exact congrArg Except.error (congrArg (DecodeError.truncatedInput _) (by omega))
                                            · rw [u32_step_err _ _ _ (by omega)]
                                              rw [if_neg (show ¬ (p + 96 ≤ bytes.length) from by omega)]
                                              simp only [symbolHeaderWidths]
                                              rw [truncErr_cons_le _ _ _ (by omega)]
                                              rw [truncErr_cons_le _ _ _ (by omega)]
                                              rw [truncErr_cons_le _ _ _ (by omega)]
                                              rw [truncErr_cons_le _ _ _ (by omega)]
                                              rw [truncErr_cons_le _ _ _ (by omega)]
                                              rw [truncErr_cons_le _ _ _ (by omega)]
                                              rw [truncErr_cons_le _ _ _ (by omega)]
                                              rw [truncErr_cons_le _ _ _ (by omega)]
                                              rw [truncErr_cons_le _ _ _ (by omega)]
                                              rw [truncErr_cons_le _ _ _ (by omega)]
                                              rw [truncErr_cons_le _ _ _ (by omega)]
                                              rw [truncErr_cons_le _ _ _ (by omega)]
                                              rw [truncErr_cons_le _ _ _ (by omega)]
                                              rw [truncErr_cons_le _ _ _ (by omega)]
                                              rw [truncErr_cons_le _ _ _ (by omega)]
                                              rw [truncErr_cons_le _ _ _ (by omega)]
                                              rw [truncErr_cons_le _ _ _ (by omega)]
                                              rw [truncErr_cons_le _ _ _ (by omega)]
                                              rw [truncErr_cons_le _ _ _ (by omega)]
                                              rw [truncErr_cons_le _ _ _ (by omega)]
                                              rw [truncErr_cons_le _ _ _ (by omega)]
                                              rw [truncErr_cons_lt _ _ _ (by omega)]
                                              try exact congrArg Except.error (congrArg (DecodeError.truncatedInput _) (by omega))
                                          · rw [u32_step_err _ _ _ (by omega)]
                                            rw [if_neg (show ¬ (p + 96 ≤ bytes.length) from by omega)]
                                            simp only [symbolHeaderWidths]
                                            rw [truncErr_cons_le _ _ _ (by omega)]
                                            rw [truncErr_cons_le _ _ _ (by omega)]
                                            rw [truncErr_cons_le _ _ _ (by omega)]
                                            rw [truncErr_cons_le _ _ _ (by omega)]
                                            rw [truncErr_cons_le _ _ _ (by omega)]
                                            rw [truncErr_cons_le _ _ _ (by omega)]
                                            rw [truncErr_cons_le _ _ _ (by omega)]
                                            rw [truncErr_cons_le _ _ _ (by omega)]
                                            rw [truncErr_cons_le _ _ _ (by omega)]
                                            rw [truncErr_cons_le _ _ _ (by omega)]
                                            rw [truncErr_cons_le _ _ _ (by omega)]
                                            rw [truncErr_cons_le _ _ _ (by omega)]
                                            rw [truncErr_cons_le _ _ _ (by omega)]
                                            rw [truncErr_cons_le _ _ _ (by omega)]
                                            rw [truncErr_cons_le _ _ _ (by omega)]
                                            rw [truncErr_cons_le _ _ _ (by omega)]
                                            rw [truncErr_cons_le _ _ _ (by omega)]
                                            rw [truncErr_cons_le _ _ _ (by omega)]
                                            rw [truncErr_cons_le _ _ _ (by omega)]
                                            rw [truncErr_cons_le _ _ _ (by omega)]
                                            rw [truncErr_cons_lt _ _ _ (by omega)]
                                            try exact congrArg Except.error (congrArg (DecodeError.truncatedInput _) (by omega))
                                        · rw [u32_step_err _ _ _ (by omega)]
                                          rw [if_neg (show ¬ (p + 96 ≤ bytes.length) from by omega)]
                                          simp only [symbolHeaderWidths]
                                          rw [truncErr_cons_le _ _ _ (by omega)]
                                          rw [truncErr_cons_le _ _ _ (by omega)]
                                          rw [truncErr_cons_le _ _ _ (by omega)]
                                          rw [truncErr_cons_le _ _ _ (by omega)]
                                          rw [truncErr_cons_le _ _ _ (by omega)]
                                          rw [truncErr_cons_le _ _ _ (by omega)]
                                          rw [truncErr_cons_le _ _ _ (by omega)]
                                          rw [truncErr_cons_le _ _ _ (by omega)]
                                          rw [truncErr_cons_le _ _ _ (by omega)]
                                          rw [truncErr_cons_le _ _ _ (by omega)]
                                          rw [truncErr_cons_le _ _ _ (by omega)]
                                          rw [truncErr_cons_le _ _ _ (by omega)]
                                          rw [truncErr_cons_le _ _ _ (by omega)]
                                          rw [truncErr_cons_le _ _ _ (by omega)]
                                          rw [truncErr_cons_le _ _ _ (by omega)]
                                          rw [truncErr_cons_le _ _ _ (by omega)]
                                          rw [truncErr_cons_le _ _ _ (by omega)]
                                          rw [truncErr_cons_le _ _ _ (by omega)]
                                          rw [truncErr_cons_le _ _ _ (by omega)]
                                          rw [truncErr_cons_lt _ _ _ (by omega)]
                                          try exact congrArg Except.error (congrArg (DecodeError.truncatedInput _) (by omega))
                                      · rw [u32_step_err _ _ _ (by omega)]
                                        rw [if_neg (show ¬ (p + 96 ≤ bytes.length) from by omega)]
                                        simp only [symbolHeaderWidths]
                                        rw [truncErr_cons_le _ _ _ (by omega)]
                                        rw [truncErr_cons_le _ _ _ (by omega)]
                                        rw [truncErr_cons_le _ _ _ (by omega)]
                                        rw [truncErr_cons_le _ _ _ (by omega)]
                                        rw [truncErr_cons_le _ _ _ (by omega)]
                                        rw [truncErr_cons_le _ _ _ (by omega)]
                                        rw [truncErr_cons_le _ _ _ (by omega)]
                                        rw [truncErr_cons_le _ _ _ (by omega)]
                                        rw [truncErr_cons_le _ _ _ (by omega)]
                                        rw [truncErr_cons_le _ _ _ (by omega)]
                                        rw [truncErr_cons_le _ _ _ (by omega)]
                                        rw [truncErr_cons_le _ _ _ (by omega)]
                                        rw [truncErr_cons_le _ _ _ (by omega)]
                                        rw [truncErr_cons_le _ _ _ (by omega)]
                                        rw [truncErr_cons_le _ _ _ (by omega)]
                                        rw [truncErr_cons_le _ _ _ (by omega)]
                                        rw [truncErr_cons_le _ _ _ (by omega)]
                                        rw [truncErr_cons_le _ _ _ (by omega)]
                                        rw [truncErr_cons_lt _ _ _ (by omega)]
                                        try exact congrArg Except.error (congrArg (DecodeError.truncatedInput _) (by omega))
                                    · rw [u32_step_err _ _ _ (by omega)]
                                      rw [if_neg (show ¬ (p + 96 ≤ bytes.length) from by omega)]
                                      simp only [symbolHeaderWidths]
                                      rw [truncErr_cons_le _ _ _ (by omega)]
                                      rw [truncErr_cons_le _ _ _ (by omega)]
                                      rw [truncErr_cons_le _ _ _ (by omega)]
                                      rw [truncErr_cons_le _ _ _ (by omega)]
                                      rw [truncErr_cons_le _ _ _ (by omega)]
                                      rw [truncErr_cons_le _ _ _ (by omega)]
                                      rw [truncErr_cons_le _ _ _ (by omega)]
                                      rw [truncErr_cons_le _ _ _ (by omega)]
                                      rw [truncErr_cons_le _ _ _ (by omega)]
                                      rw [truncErr_cons_le _ _ _ (by omega)]
                                      rw [truncErr_cons_le _ _ _ (by omega)]
                                      rw [truncErr_cons_le _ _ _ (by omega)]
                                      rw [truncErr_cons_le _ _ _ (by omega)]
                                      rw [truncErr_cons_le _ _ _ (by omega)]
                                      rw [truncErr_cons_le _ _ _ (by omega)]
                                      rw [truncErr_cons_le _ _ _ (by omega)]
                                      rw [truncErr_cons_le _ _ _ (by omega)]
                                      rw [truncErr_cons_lt _ _ _ (by omega)]
                                      try exact congrArg Except.error (congrArg (DecodeError.truncatedInput _) (by omega))
                                  · rw [u32_step_err _ _ _ (by omega)]
                                    rw [if_neg (show ¬ (p + 96 ≤ bytes.length) from by omega)]
                                    simp only [symbolHeaderWidths]
                                    rw [truncErr_cons_le _ _ _ (by omega)]
                                    rw [truncErr_cons_le _ _ _ (by omega)]
                                    rw [truncErr_cons_le _ _ _ (by omega)]
                                    rw [truncErr_cons_le _ _ _ (by omega)]
                                    rw [truncErr_cons_le _ _ _ (by omega)]
                                    rw [truncErr_cons_le _ _ _ (by omega)]
                                    rw [truncErr_cons_le _ _ _ (by omega)]
                                    rw [truncErr_cons_le _ _ _ (by omega)]
                                    rw [truncErr_cons_le _ _ _ (by omega)]
                                    rw [truncErr_cons_le _ _ _ (by omega)]
                                    rw [truncErr_cons_le _ _ _ (by omega)]
                                    rw [truncErr_cons_le _ _ _ (by omega)]
                                    rw [truncErr_cons_le _ _ _ (by omega)]
                                    rw [truncErr_cons_le _ _ _ (by omega)]
                                    rw [truncErr_cons_le _ _ _ (by omega)]
                                    rw [truncErr_cons_le _ _ _ (by omega)]
                                    rw [truncErr_cons_lt _ _ _ (by omega)]
                                    try exact congrArg Except.error (congrArg (DecodeError.truncatedInput _) (by omega))
                                · rw [u32_step_err _ _ _ (by omega)]
                                  rw [if_neg (show ¬ (p + 96 ≤ bytes.length) from by omega)]
                                  simp only [symbolHeaderWidths]
                                  rw [truncErr_cons_le _ _ _ (by omega)]
                                  rw [truncErr_cons_le _ _ _ (by omega)]
                                  rw [truncErr_cons_le _ _ _ (by omega)]
                                  rw [truncErr_cons_le _ _ _ (by omega)]
                                  rw [truncErr_cons_le _ _ _ (by omega)]
                                  rw [truncErr_cons_le _ _ _ (by omega)]
                                  rw [truncErr_cons_le _ _ _ (by omega)]
                                  rw [truncErr_cons_le _ _ _ (by omega)]
                                  rw [truncErr_cons_le _ _ _ (by omega)]
                                  rw [truncErr_cons_le _ _ _ (by omega)]
                                  rw [truncErr_cons_le _ _ _ (by omega)]
                                  rw [truncErr_cons_le _ _ _ (by omega)]
                                  rw [truncErr_cons_le _ _ _ (by omega)]
                                  rw [truncErr_cons_le _ _ _ (by omega)]
                                  rw [truncErr_cons_le _ _ _ (by omega)]
                                  rw [truncErr_cons_lt _ _ _ (by omega)]
                                  try exact congrArg Except.error (congrArg (DecodeError.truncatedInput _) (by omega))
                              · rw [u32_step_err _ _ _ (by omega)]
                                rw [if_neg (show ¬ (p + 96 ≤ bytes.length) from by omega)]
                                simp only [symbolHeaderWidths]
                                rw [truncErr_cons_le _ _ _ (by omega)]
                                rw [truncErr_cons_le _ _ _ (by omega)]
                                rw [truncErr_cons_le _ _ _ (by omega)]
                                rw [truncErr_cons_le _ _ _ (by omega)]
                                rw [truncErr_cons_le _ _ _ (by omega)]
                                rw [truncErr_cons_le _ _ _ (by omega)]
                                rw [truncErr_cons_le _ _ _ (by omega)]
                                rw [truncErr_cons_le _ _ _ (by omega)]
                                rw [truncErr_cons_le _ _ _ (by omega)]
                                rw [truncErr_cons_le _ _ _ (by omega)]
                                rw [truncErr_cons_le _ _ _ (by omega)]
                                rw [truncErr_cons_le _ _ _ (by omega)]
                                rw [truncErr_cons_le _ _ _ (by omega)]
                                rw [truncErr_cons_le _ _ _ (by omega)]
                                rw [truncErr_cons_lt _ _ _ (by omega)]
                                try exact congrArg Except.error (congrArg (DecodeError.truncatedInput _) (by omega))
                            · rw [u32_step_err _ _ _ (by omega)]
                              rw [if_neg (show ¬ (p + 96 ≤ bytes.length) from by omega)]
                              simp only [symbolHeaderWidths]
                              rw [truncErr_cons_le _ _ _ (by omega)]
                              rw [truncErr_cons_le _ _ _ (by omega)]
                              rw [truncErr_cons_le _ _ _ (by omega)]
                              rw [truncErr_cons_le _ _ _ (by omega)]
                              rw [truncErr_cons_le _ _ _ (by omega)]
                              rw [truncErr_cons_le _ _ _ (by omega)]
                              rw [truncErr_cons_le _ _ _ (by omega)]
                              rw [truncErr_cons_le _ _ _ (by omega)]
                              rw [truncErr_cons_le _ _ _ (by omega)]
                              rw [truncErr_cons_le _ _ _ (by omega)]
                              rw [truncErr_cons_le _ _ _ (by omega)]
                              rw [truncErr_cons_le _ _ _ (by omega)]
                              rw [truncErr_cons_le _ _ _ (by omega)]
                              rw [truncErr_cons_lt _ _ _ (by omega)]
                              try exact congrArg Except.error (congrArg (DecodeError.truncatedInput _) (by omega))
                          · rw [u32_step_err _ _ _ (by omega)]
                            rw [if_neg (show ¬ (p + 96 ≤ bytes.length) from by omega)]
                            simp only [symbolHeaderWidths]
                            rw [truncErr_cons_le _ _ _ (by omega)]
                            rw [truncErr_cons_le _ _ _ (by omega)]
                            rw [truncErr_cons_le _ _ _ (by omega)]
                            rw [truncErr_cons_le _ _ _ (by omega)]
                            rw [truncErr_cons_le _ _ _ (by omega)]
                            rw [truncErr_cons_le _ _ _ (by omega)]
                            rw [truncErr_cons_le _ _ _ (by omega)]
                            rw [truncErr_cons_le _ _ _ (by omega)]
                            rw [truncErr_cons_le _ _ _ (by omega)]
                            rw [truncErr_cons_le _ _ _ (by omega)]
                            rw [truncErr_cons_le _ _ _ (by omega)]
                            rw [truncErr_cons_le _ _ _ (by omega)]
                            rw [truncErr_cons_lt _ _ _ (by omega)]
                            try exact congrArg Except.error (congrArg (DecodeError.truncatedInput _) (by omega))
                        · rw [u32_step_err _ _ _ (by omega)]
                          rw [if_neg (show ¬ (p + 96 ≤ bytes.length) from by omega)]
                          simp only [symbolHeaderWidths]
                          rw [truncErr_cons_le _ _ _ (by omega)]
                          rw [truncErr_cons_le _ _ _ (by omega)]
                          rw [truncErr_cons_le _ _ _ (by omega)]
                          rw [truncErr_cons_le _ _ _ (by omega)]
                          rw [truncErr_cons_le _ _ _ (by omega)]
                          rw [truncErr_cons_le _ _ _ (by omega)]
                          rw [truncErr_cons_le _ _ _ (by omega)]
                          rw [truncErr_cons_le _ _ _ (by omega)]
                          rw [truncErr_cons_le _ _ _ (by omega)]
                          rw [truncErr_cons_le _ _ _ (by omega)]
                          rw [truncErr_cons_le _ _ _ (by omega)]
                          rw [truncErr_cons_lt _ _ _ (by omega)]
                          try exact congrArg Except.error (congrArg (DecodeError.truncatedInput _) (by omega))
                      · rw [u32_step_err _ _ _ (by omega)]
                        rw [if_neg (show ¬ (p + 96 ≤ bytes.length) from by omega)]
                        simp only [symbolHeaderWidths]
                        rw [truncErr_cons_le _ _ _ (by omega)]
                        rw [truncErr_cons_le _ _ _ (by omega)]
                        rw [truncErr_cons_le _ _ _ (by omega)]
                        rw [truncErr_cons_le _ _ _ (by omega)]
                        rw [truncErr_cons_le _ _ _ (by omega)]
                        rw [truncErr_cons_le _ _ _ (by omega)]
                        rw [truncErr_cons_le _ _ _ (by omega)]
                        rw [truncErr_cons_le _ _ _ (by omega)]
                        rw [truncErr_cons_le _ _ _ (by omega)]
                        rw [truncErr_cons_le _ _ _ (by omega)]
                        rw [truncErr_cons_lt _ _ _ (by omega)]
                        try exact congrArg Except.error (congrArg (DecodeError.truncatedInput _) (by omega))
                    · rw [u32_step_err _ _ _ (by omega)]
                      rw [if_neg (show ¬ (p + 96 ≤ bytes.length) from by omega)]
                      simp only [symbolHeaderWidths]
                      rw [truncErr_cons_le _ _ _ (by omega)]
                      rw [truncErr_cons_le _ _ _ (by omega)]
                      rw [truncErr_cons_le _ _ _ (by omega)]
                      rw [truncErr_cons_le _ _ _ (by omega)]
                      rw [truncErr_cons_le _ _ _ (by omega)]
                      rw [truncErr_cons_le _ _ _ (by omega)]
                      rw [truncErr_cons_le _ _ _ (by omega)]
                      rw [truncErr_cons_le _ _ _ (by omega)]
                      rw [truncErr_cons_le _ _ _ (by omega)]
                      rw [truncErr_cons_lt _ _ _ (by omega)]
                      try exact congrArg Except.error (congrArg (DecodeError.truncatedInput _) (by omega))
                  · rw [u32_step_err _ _ _ (by omega)]
                    rw [if_neg (show ¬ (p + 96 ≤ bytes.length) from by omega)]
                    simp only [symbolHeaderWidths]
                    rw [truncErr_cons_le _ _ _ (by omega)]
                    rw [truncErr_cons_le _ _ _ (by omega)]
                    rw [truncErr_cons_le _ _ _ (by omega)]
                    rw [truncErr_cons_le _ _ _ (by omega)]
                    rw [truncErr_cons_le _ _ _ (by omega)]
                    rw [truncErr_cons_le _ _ _ (by omega)]
                    rw [truncErr_cons_le _ _ _ (by omega)]
                    rw [truncErr_cons_le _ _ _ (by omega)]
                    rw [truncErr_cons_lt _ _ _ (by omega)]
                    try exact congrArg Except.error (congrArg (DecodeError.truncatedInput _) (by omega))
                · rw [u32_step_err _ _ _ (by omega)]
                  rw [if_neg (show ¬ (p + 96 ≤ bytes.length) from by omega)]
                  simp only [symbolHeaderWidths]
                  rw [truncErr_cons_le _ _ _ (by omega)]
                  rw [truncErr_cons_le _ _ _ (by omega)]
                  rw [truncErr_cons_le _ _ _ (by omega)]
                  rw [truncErr_cons_le _ _ _ (by omega)]
                  rw [truncErr_cons_le _ _ _ (by omega)]
                  rw [truncErr_cons_le _ _ _ (by omega)]
                  rw [truncErr_cons_le _ _ _ (by omega)]
                  rw [truncErr_cons_lt _ _ _ (by omega)]
                  try exact congrArg Except.error (congrArg (DecodeError.truncatedInput _) (by omega))
              · rw [u32_step_err _ _ _ (by omega)]
                rw [if_neg (show ¬ (p + 96 ≤ bytes.length) from by omega)]
                simp only [symbolHeaderWidths]
                rw [truncErr_cons_le _ _ _ (by omega)]
                rw [truncErr_cons_le _ _ _ (by omega)]
                rw [truncErr_cons_le _ _ _ (by omega)]
                rw [truncErr_cons_le _ _ _ (by omega)]
                rw [truncErr_cons_le _ _ _ (by omega)]
                rw [truncErr_cons_le _ _ _ (by omega)]
                rw [truncErr_cons_lt _ _ _ (by omega)]
                try exact congrArg Except.error (congrArg (DecodeError.truncatedInput _) (by omega))
            · rw [u32_step_err _ _ _ (by omega)]
              rw [if_neg (show ¬ (p + 96 ≤ bytes.length) from by omega)]
              simp only [symbolHeaderWidths]
              rw [truncErr_cons_le _ _ _ (by omega)]
              rw [truncErr_cons_le _ _ _ (by omega)]
              rw [truncErr_cons_le _ _ _ (by omega)]
              rw [truncErr_cons_le _ _ _ (by omega)]
              rw [truncErr_cons_le _ _ _ (by omega)]
              rw [truncErr_cons_lt _ _ _ (by omega)]
              try exact congrArg Except.error (congrArg (DecodeError.truncatedInput _) (by omega))
          · rw [u32_step_err _ _ _ (by omega)]
            rw [if_neg (show ¬ (p + 96 ≤ bytes.length) from by omega)]
            simp only [symbolHeaderWidths]
            rw [truncErr_cons_le _ _ _ (by omega)]
            rw [truncErr_cons_le _ _ _ (by omega)]
            rw [truncErr_cons_le _ _ _ (by omega)]
            rw [truncErr_cons_le _ _ _ (by omega)]
            rw [truncErr_cons_lt _ _ _ (by omega)]
            try exact congrArg Except.error (congrArg (DecodeError.truncatedInput _) (by omega))
        · rw [u32_step_err _ _ _ (by omega)]
          rw [if_neg (show ¬ (p + 96 ≤ bytes.length) from by omega)]
          simp only [symbolHeaderWidths]
          rw [truncErr_cons_le _ _ _ (by omega)]
          rw [truncErr_cons_le _ _ _ (by omega)]
          rw [truncErr_cons_le _ _ _ (by omega)]
          rw [truncErr_cons_lt _ _ _ (by omega)]
          try exact congrArg Except.error (congrArg (DecodeError.truncatedInput _) (by omega))
      · rw [u32_step_err _ _ _ (by omega)]
        rw [if_neg (show ¬ (p + 96 ≤ bytes.length) from by omega)]
        simp only [symbolHeaderWidths]
        rw [truncErr_cons_le _ _ _ (by omega)]
        rw [truncErr_cons_le _ _ _ (by omega)]
        rw [truncErr_cons_lt _ _ _ (by omega)]
        try exact congrArg Except.error (congrArg (DecodeError.truncatedInput _) (by omega))
    · rw [u16_step_err _ _ _ (by omega)]
      rw [if_neg (show ¬ (p + 96 ≤ bytes.length) from by omega)]
      simp only [symbolHeaderWidths]
      rw [truncErr_cons_le _ _ _ (by omega)]
      rw [truncErr_cons_lt _ _ _ (by omega)]
      try exact congrArg Except.error (congrArg (DecodeError.truncatedInput _) (by omega))
  · rw [u16_step_err _ _ _ (by omega)]
    rw [if_neg (show ¬ (p + 96 ≤ bytes.length) from by omega)]
    simp only [symbolHeaderWidths]
    rw [truncErr_cons_lt _ _ _ (by omega)]
    try exact congrArg Except.error (congrArg (DecodeError.truncatedInput _) (by omega))

/-- Materializing a section seeks to the declared data offset and reads
exactly the declared size; the prior position is discarded by the seek. -/
theorem read_section_data_run (hdr : EcoffSectionHeader) (s : ReaderState) :
    read_section_data hdr s =
      if hdr.s_size ≤ s.bytes.length - hdr.s_scnptr then
        .ok ((s.bytes.drop hdr.s_scnptr).take hdr.s_size,
             ⟨s.bytes, hdr.s_scnptr + hdr.s_size⟩)
      else
        .error (.truncatedInput hdr.s_size (s.bytes.length - hdr.s_scnptr)) := rfl

/-- Extracting a string table seeks to the absolute offset and reads exactly
the declared byte length; the prior position is discarded by the seek. -/
theorem readStringTable_run (off n : Nat) (s : ReaderState) :
    readStringTable off n s =
      if n ≤ s.bytes.length - off then
        .ok ((s.bytes.drop off).take n, ⟨s.bytes, off + n⟩)
      else
        .error (.truncatedInput n (s.bytes.length - off)) := rfl

/-! ## Pipeline lemmas -/

/-- Reducing a seek at the head of a decoder. -/
theorem seek_step {α : Type} (k : Unit → DecM α) (off : Nat) (bytes : List Nat) (p : Nat) :
    ((seekTo off : DecM Unit) >>= k) ⟨bytes, p⟩ = k () ⟨bytes, off⟩ := rfl

/-- With a zero optional-header size, the optional header is skipped: the
result is none and the reader state is returned untouched. -/
theorem readOptionalIfPresent_absent (fh : EcoffFileHeader) (s : ReaderState)
    (h : fh.f_opthdr = 0) :
    readOptionalIfPresent fh s = .ok (none, s) := by
  simp only [readOptionalIfPresent, h]
  rfl

/-- With a positive optional-header size, the 56-byte optional header is
decoded from the current position. -/
theorem readOptionalIfPresent_present (fh : EcoffFileHeader) (bytes : List Nat) (p : Nat)
    (h : 0 < fh.f_opthdr) :
    readOptionalIfPresent fh ⟨bytes, p⟩ =
      if p + 56 ≤ bytes.length then
        .ok (some (optionalHeaderAt bytes p), ⟨bytes, p + 56⟩)
      else
        .error (truncErr (bytes.length - p) optionalHeaderWidths) := by
  simp only [readOptionalIfPresent, if_pos h, run_bind, read_optional_header_run]
  split
  · rfl
  · rfl

/-- Zero sections decode to the empty list without touching the state. -/
theorem readSections_zero (s : ReaderState) : readSections 0 s = .ok ([], s) := rfl

/-- Unfolding one step of the section loop: a header read, a payload
materialization, then the remaining sections from wherever the payload read
left the position. -/
theorem readSections_succ (n : Nat) (s : ReaderState) :
    readSections (n + 1) s =
      (read_section_header s).bind fun q =>
        (read_section_data q.1 q.2).bind fun r =>
          (readSections n r.2).bind fun t =>
            .ok ((q.1, r.1) :: t.1, t.2) := by
  cases hq : read_section_header s with
  | error e => simp only [readSections, run_bind, hq]; rfl
  | ok q =>
    simp only [readSections, run_bind, hq, ok_bind]
    cases hr : read_section_data q.1 q.2 with
    | error e => rfl
    | ok r =>
      simp only [ok_bind]
      cases ht : readSections n r.2 with
      | error e => rfl
      | ok t => rfl

/-- A successful section loop preserves the underlying input bytes. -/
theorem readSections_ok_bytes (n : Nat) :
    ∀ (s : ReaderState) (v : List (EcoffSectionHeader × List Nat)) (s1 : ReaderState),
      readSections n s = .ok (v, s1) → s1.bytes = s.bytes := by
  induction n with
  | zero =>
    intro s v s1 h
    rw [readSections_zero] at h
    cases h
    rfl
  | succ n ih =>
    intro s v s1 h
    rw [readSections_succ] at h
    cases hq : read_section_header s with
    | error e => rw [hq] at h; cases h
    | ok q =>
      rw [hq, ok_bind] at h
      cases hr : read_section_data q.1 q.2 with
      | error e => rw [hr] at h; cases h
      | ok r =>
        rw [hr, ok_bind] at h
        cases ht : readSections n r.2 with
        | error e => rw [ht] at h; cases h
        | ok t =>
          rw [ht, ok_bind] at h
          cases h
          have e1 : t.2.bytes = r.2.bytes := ih r.2 t.1 t.2 (by rw [ht])
          have e2 : r.2.bytes = q.2.bytes := by
            have := read_section_data_run q.1 q.2
            rw [this] at hr
            split at hr
            · cases hr; rfl
            · cases hr
          have e3 : q.2.bytes = s.bytes := by
            have := read_section_header_run s.bytes s.pos
            rw [show (⟨s.bytes, s.pos⟩ : ReaderState) = s from rfl] at this
            rw [this] at hq
            split at hq
            · cases hq; rfl
            · cases hq
          rw [e1, e2, e3]

/-- Every payload in a successful section loop has exactly the length its
header declares: a short payload is never returned silently. -/
theorem readSections_ok_lengths (n : Nat) :
    ∀ (s : ReaderState) (v : List (EcoffSectionHeader × List Nat)) (s1 : ReaderState),
      readSections n s = .ok (v, s1) →
        ∀ sd ∈ v, sd.2.length = sd.1.s_size := by
  induction n with
  | zero =>
    intro s v s1 h
    rw [readSections_zero] at h
    cases h
    intro sd hsd
    cases hsd
  | succ n ih =>
    intro s v s1 h
    rw [readSections_succ] at h
    cases hq : read_section_header s with
    | error e => rw [hq] at h; cases h
    | ok q =>
      rw [hq, ok_bind] at h
      cases hr : read_section_data q.1 q.2 with
      | error e => rw [hr] at h; cases h
      | ok r =>
        rw [hr, ok_bind] at h
        cases ht : readSections n r.2 with
        | error e => rw [ht] at h; cases h
        | ok t =>
          rw [ht, ok_bind] at h
          cases h
          intro sd hsd
          rcases List.mem_cons.mp hsd with hhd | htl
          · subst hhd
            have := read_section_data_run q.1 q.2
            rw [this] at hr
            split at hr
            · cases hr
              simp only [List.length_take, List.length_drop]
              omega
            · cases hr
          · exact ih r.2 t.1 t.2 (by rw [ht]) sd htl

/-- Mapping over a successful fallible value. -/
theorem map_ok {α β : Type} (a : α) (f : α → β) :
    (Except.ok a : Except DecodeError α).map f = .ok (f a) := rfl

/-- Mapping over a failed fallible value keeps the error. -/
theorem map_err {α β : Type} (e : DecodeError) (f : α → β) :
    (Except.error e : Except DecodeError α).map f = .error e := rfl

/-- Unfolding the whole decode as the file header stage followed by the rest
of the pipeline. -/
theorem decodeAll_run (s : ReaderState) :
    decodeAll s = (read_file_header s).bind fun q => decodeFrom q.1 q.2 := by
  cases hq : read_file_header s with
  | error e =>
    show (read_file_header s).bind _ = _
    rw [hq]
  | ok q =>
    show (read_file_header s).bind _ = _
    rw [hq]

/-- Unfolding the post-file-header pipeline: optional header, sections, seek
to the symbol table, symbolic header, local strings, external strings. -/
theorem decodeFrom_run (fh : EcoffFileHeader) (s : ReaderState) :
    decodeFrom fh s =
      (readOptionalIfPresent fh s).bind fun q =>
        (readSections fh.f_nscns q.2).bind fun r =>
          (read_symbol_header ⟨r.2.bytes, fh.f_symptr⟩).bind fun t =>
            (readStringTable t.1.cb_ss_offset t.1.iss_max t.2).bind fun u =>
              (readStringTable t.1.cb_ss_ext_offset t.1.iss_ext_max u.2).bind fun v =>
                .ok ({ fileHeader := fh, optionalHeader := q.1, sections := r.1,
                       symbolHeader := t.1, localStrings := u.1,
                       externalStrings := v.1 }, v.2) := rfl

/-- The whole decode is the run of the pipeline from position zero. -/
theorem decodeEcoff_def (input : List Nat) :
    decodeEcoff input = (decodeAll ⟨input, 0⟩).map Prod.fst := rfl

/-- A successful conditional optional-header decode preserves the input. -/
theorem readOptionalIfPresent_ok_bytes (fh : EcoffFileHeader) (s : ReaderState)
    (o : Option EcoffOptionalHeader) (s1 : ReaderState)
    (h : readOptionalIfPresent fh s = .ok (o, s1)) : s1.bytes = s.bytes := by
  by_cases hp : 0 < fh.f_opthdr
  · rw [show s = (⟨s.bytes, s.pos⟩ : ReaderState) from rfl,
        readOptionalIfPresent_present fh s.bytes s.pos hp] at h
    split at h
    · cases h; rfl
    · cases h
  · rw [readOptionalIfPresent_absent fh s (by omega)] at h
    cases h
    rfl

/-- Inversion of a successful decode into its successive stages: the file
header from the first 20 bytes, the optional header right after it, the
sections from wherever the optional-header stage stopped, the symbolic header
at the absolute symbol-table offset, and the two string tables at their
absolute offsets. -/
theorem decodeEcoff_ok_inv (input : List Nat) (obj : EcoffObject)
    (h : decodeEcoff input = .ok obj) :
    20 ≤ input.length ∧
    obj.fileHeader = fileHeaderAt input 0 ∧
    ∃ p2 p3,
      readOptionalIfPresent obj.fileHeader ⟨input, 20⟩ =
        .ok (obj.optionalHeader, ⟨input, p2⟩) ∧
      readSections obj.fileHeader.f_nscns ⟨input, p2⟩ =
        .ok (obj.sections, ⟨input, p3⟩) ∧
      read_symbol_header ⟨input, obj.fileHeader.f_symptr⟩ =
        .ok (obj.symbolHeader, ⟨input, obj.fileHeader.f_symptr + 96⟩) ∧
      readStringTable obj.symbolHeader.cb_ss_offset obj.symbolHeader.iss_max
          ⟨input, obj.fileHeader.f_symptr + 96⟩ =
        .ok (obj.localStrings,
             ⟨input, obj.symbolHeader.cb_ss_offset + obj.symbolHeader.iss_max⟩) ∧
      readStringTable obj.symbolHeader.cb_ss_ext_offset obj.symbolHeader.iss_ext_max
          ⟨input, obj.symbolHeader.cb_ss_offset + obj.symbolHeader.iss_max⟩ =
        .ok (obj.externalStrings,
             ⟨input, obj.symbolHeader.cb_ss_ext_offset + obj.symbolHeader.iss_ext_max⟩) := by
  rw [decodeEcoff_def] at h
  cases hall : decodeAll ⟨input, 0⟩ with
  | error e => rw [hall, map_err] at h; cases h
  | ok q =>
    rw [hall, map_ok] at h
    have hq1 : q.1 = obj := by cases h; rfl
    rw [decodeAll_run, read_file_header_run] at hall
    by_cases h20 : 0 + 20 ≤ input.length
    case neg => rw [if_neg h20] at hall; cases hall
    rw [if_pos h20, ok_bind] at hall
    simp only [Nat.zero_add] at hall
    rw [decodeFrom_run] at hall
    cases hopt : readOptionalIfPresent (fileHeaderAt input 0) ⟨input, 20⟩ with
    | error e => rw [hopt] at hall; cases hall
    | ok w =>
      rw [hopt, ok_bind] at hall
      have hwb : w.2.bytes = input :=
        readOptionalIfPresent_ok_bytes _ _ _ _ (by rw [hopt])
      cases hsec : readSections (fileHeaderAt input 0).f_nscns w.2 with
      | error e => rw [hsec] at hall; cases hall
      | ok r =>
        rw [hsec, ok_bind] at hall
        have hrb : r.2.bytes = input := by
          rw [readSections_ok_bytes _ w.2 r.1 r.2 (by rw [hsec]), hwb]
        rw [hrb] at hall
        rw [read_symbol_header_run] at hall
        by_cases h96 : (fileHeaderAt input 0).f_symptr + 96 ≤ input.length
        case neg => rw [if_neg h96] at hall; cases hall
        rw [if_pos h96, ok_bind] at hall
        rw [readStringTable_run] at hall
        by_cases hL :
            (symbolHeaderAt input (fileHeaderAt input 0).f_symptr).iss_max ≤
              input.length -
                (symbolHeaderAt input (fileHeaderAt input 0).f_symptr).cb_ss_offset
        case neg => rw [if_neg hL] at hall; cases hall
        rw [if_pos hL, ok_bind] at hall
        rw [readStringTable_run] at hall
        by_cases hE :
            (symbolHeaderAt input (fileHeaderAt input 0).f_symptr).iss_ext_max ≤
              input.length -
                (symbolHeaderAt input (fileHeaderAt input 0).f_symptr).cb_ss_ext_offset
        case neg => rw [if_neg hE] at hall; cases hall
        rw [if_pos hE, ok_bind] at hall
        injection hall with hinj
        subst hinj
        subst hq1
        refine ⟨by omega, rfl, w.2.pos, r.2.pos, ?_, ?_, ?_, ?_, ?_⟩
        · have hw2 : (⟨input, w.2.pos⟩ : ReaderState) = w.2 := by rw [← hwb]
          rw [hw2]
          exact hopt
        · have hw2 : (⟨input, w.2.pos⟩ : ReaderState) = w.2 := by rw [← hwb]
          have hr2 : (⟨input, r.2.pos⟩ : ReaderState) = r.2 := by rw [← hrb]
          rw [hw2, hr2]
          exact hsec
        · simp only []
          rw [read_symbol_header_run, if_pos h96]
        · simp only []
          rw [readStringTable_run, if_pos hL]
        · simp only []
          rw [readStringTable_run, if_pos hE]

/-- Composition of successful stages into a successful whole decode. -/
theorem decodeEcoff_mk (input : List Nat) (fh : EcoffFileHeader)
    (opt : Option EcoffOptionalHeader) (p2 : Nat)
    (secs : List (EcoffSectionHeader × List Nat)) (p3 : Nat) (sh : SymbolHeader)
    (loc ext : List Nat)
    (h1 : read_file_header ⟨input, 0⟩ = .ok (fh, ⟨input, 20⟩))
    (h2 : readOptionalIfPresent fh ⟨input, 20⟩ = .ok (opt, ⟨input, p2⟩))
    (h3 : readSections fh.f_nscns ⟨input, p2⟩ = .ok (secs, ⟨input, p3⟩))
    (h4 : read_symbol_header ⟨input, fh.f_symptr⟩ =
      .ok (sh, ⟨input, fh.f_symptr + 96⟩))
    (h5 : readStringTable sh.cb_ss_offset sh.iss_max ⟨input, fh.f_symptr + 96⟩ =
      .ok (loc, ⟨input, sh.cb_ss_offset + sh.iss_max⟩))
    (h6 : readStringTable sh.cb_ss_ext_offset sh.iss_ext_max
        ⟨input, sh.cb_ss_offset + sh.iss_max⟩ =
      .ok (ext, ⟨input, sh.cb_ss_ext_offset + sh.iss_ext_max⟩)) :
    decodeEcoff input =
      .ok { fileHeader := fh, optionalHeader := opt, sections := secs,
            symbolHeader := sh, localStrings := loc, externalStrings := ext } := by
  rw [decodeEcoff_def, decodeAll_run, h1, ok_bind, decodeFrom_run, h2, ok_bind,
    h3, ok_bind]
  simp only []
  rw [h4, ok_bind]
  simp only []
  rw [h5, ok_bind]
  simp only []
  rw [h6, ok_bind, map_ok]

/-! ## Claim theorems -/

/-- The truncation scan always yields a truncated-input error. -/
theorem truncErr_shape (ws : List Nat) :
    ∀ avail : Nat, ∃ r a, truncErr avail ws = .truncatedInput r a := by
  induction ws with
  | nil => intro avail; exact ⟨0, avail, rfl⟩
  | cons w ws ih =>
    intro avail
    by_cases h : w ≤ avail
    · obtain ⟨r, a, he⟩ := ih (avail - w)
      exact ⟨r, a, by rw [truncErr_cons_le _ _ _ h, he]⟩
    · exact ⟨w, avail, by rw [truncErr_cons_lt _ _ _ (by omega)]⟩

/-- C5: the File Header decoder reads exactly the first 20 bytes of the
input, interpreting all multi-byte fields big-endian in the fixed order
magic, sectionCount, timestamp, symbolTableOffset, symbolCount,
optionalHeaderSize, flags; any input shorter than 20 bytes fails with a
TruncatedInput error and returns no partial record, and a 10-byte input
fails at the symbolTableOffset field, requesting 4 bytes with 2 available. -/
theorem C5_file_header_layout (bytes : List Nat) :
    (20 ≤ bytes.length →
      read_file_header ⟨bytes, 0⟩ = .ok (fileHeaderAt bytes 0, ⟨bytes, 20⟩)) ∧
    (bytes.length < 20 →
      ∃ r a, read_file_header ⟨bytes, 0⟩ = .error (.truncatedInput r a)) ∧
    (bytes.length = 10 →
      read_file_header ⟨bytes, 0⟩ = .error (.truncatedInput 4 2)) := by
  refine ⟨?_, ?_, ?_⟩
  · intro h
    rw [read_file_header_run, if_pos (by omega)]
  · intro h
    rw [read_file_header_run, if_neg (by omega)]
    obtain ⟨r, a, he⟩ := truncErr_shape fileHeaderWidths (bytes.length - 0)
    exact ⟨r, a, by rw [he]⟩
  · intro h
    rw [read_file_header_run, if_neg (by omega), h]
    rfl

/-- Witness for C5 at a concrete 10-byte input. -/
theorem C5_file_header_layout_witness :
    tenByteInput.length = 10 ∧
    read_file_header ⟨tenByteInput, 0⟩ = .error (.truncatedInput 4 2) :=
  ⟨rfl, (C5_file_header_layout tenByteInput).2.2 rfl⟩

/-- C2 counterexample: a section whose declared size 4294967280 is wildly
inconsistent with the 160-byte input is reported as TruncatedInput by the
decode, not as InvalidLayout: no defensive bound check exists. -/
theorem C2_invalid_layout_counterexample :
    decodeEcoff hugeSizeInput = .error (.truncatedInput 4294967280 100) ∧
    hugeSizeInput.length = 160 :=
  ⟨rfl, rfl⟩

/-- C2 amended: the Section Materializer fails with TruncatedInput carrying
the declared size and the bytes available at the data offset whenever fewer
than size bytes are available there, including when size is clearly
inconsistent with the total stream length; every failure it can produce is a
TruncatedInput, so no separate InvalidLayout bound check exists. -/
theorem C2_truncation_only (s : ReaderState) (hdr : EcoffSectionHeader) :
    (s.bytes.length - hdr.s_scnptr < hdr.s_size →
      read_section_data hdr s =
        .error (.truncatedInput hdr.s_size (s.bytes.length - hdr.s_scnptr))) ∧
    (∀ e, read_section_data hdr s = .error e → ∃ r a, e = .truncatedInput r a) := by
  constructor
  · intro h
    rw [read_section_data_run, if_neg (by omega)]
  · intro e he
    rw [read_section_data_run] at he
    split at he
    · cases he
    · cases he
      exact ⟨_, _, rfl⟩

/-- Witness for C2 at a concrete empty input and one-byte section. -/
theorem C2_truncation_only_witness :
    (⟨[], 0⟩ : ReaderState).bytes.length - oneByteSection.s_scnptr <
        oneByteSection.s_size ∧
    read_section_data oneByteSection ⟨[], 0⟩ = .error (.truncatedInput 1 0) :=
  ⟨by decide, (C2_truncation_only ⟨[], 0⟩ oneByteSection).1 (by decide)⟩

/-- C4 counterexample: a section declaring size 0 at data offset 1000 in a
160-byte input has dataOffset + size exceeding the input length, yet the
whole decode succeeds and materializes an empty payload instead of failing. -/
theorem C4_zero_size_counterexample :
    (decodeEcoff zeroSizeFarInput).map
        (fun o => o.sections.map fun sd => (sd.1.s_scnptr, sd.1.s_size, sd.2.length)) =
      .ok [(1000, 0, 0)] ∧
    zeroSizeFarInput.length = 160 :=
  ⟨rfl, rfl⟩

/-- C4 amended: materializing a section with positive declared size whose
dataOffset + size exceeds the total input length fails with TruncatedInput
(a zero-size section materializes to the empty payload even when its offset
is out of range), and a successful decode never returns a payload whose
length differs from the declared size. -/
theorem C4_oversized_section_fails :
    (∀ (s : ReaderState) (hdr : EcoffSectionHeader), 0 < hdr.s_size →
      s.bytes.length < hdr.s_scnptr + hdr.s_size →
      read_section_data hdr s =
        .error (.truncatedInput hdr.s_size (s.bytes.length - hdr.s_scnptr))) ∧
    (∀ (input : List Nat) (obj : EcoffObject), decodeEcoff input = .ok obj →
      ∀ sd ∈ obj.sections, sd.2.length = sd.1.s_size) := by
  constructor
  · intro s hdr h0 hover
    rw [read_section_data_run, if_neg (by omega)]
  · intro input obj h sd hsd
    obtain ⟨_, _, p2, p3, _, hsec, _⟩ := decodeEcoff_ok_inv input obj h
    exact readSections_ok_lengths _ _ _ _ hsec sd hsd

/-- Witness for C4 at a concrete empty input and one-byte section. -/
theorem C4_oversized_section_fails_witness :
    0 < oneByteSection.s_size ∧
    ([] : List Nat).length < oneByteSection.s_scnptr + oneByteSection.s_size ∧
    read_section_data oneByteSection ⟨[], 0⟩ = .error (.truncatedInput 1 0) :=
  ⟨by decide, by decide,
    C4_oversized_section_fails.1 ⟨[], 0⟩ oneByteSection (by decide) (by decide)⟩

/-- C7: the String Table Extractor seeks to the absolute offset and reads
exactly the declared byte length as an opaque blob, failing with
TruncatedInput when fewer bytes are available; a zero byte length succeeds
with the empty blob at any offset; and in a successful decode both the local
and the external string table are exactly the declared slices of the input
at their declared offsets. -/
theorem C7_string_table_extractor :
    (∀ (s : ReaderState) (off n : Nat),
      readStringTable off n s =
        if n ≤ s.bytes.length - off then
          .ok ((s.bytes.drop off).take n, ⟨s.bytes, off + n⟩)
        else .error (.truncatedInput n (s.bytes.length - off))) ∧
    (∀ (s : ReaderState) (off : Nat),
      readStringTable off 0 s = .ok ([], ⟨s.bytes, off⟩)) ∧
    (∀ (input : List Nat) (obj : EcoffObject), decodeEcoff input = .ok obj →
      obj.localStrings =
        (input.drop obj.symbolHeader.cb_ss_offset).take obj.symbolHeader.iss_max ∧
      obj.externalStrings =
        (input.drop obj.symbolHeader.cb_ss_ext_offset).take
          obj.symbolHeader.iss_ext_max) := by
  refine ⟨?_, ?_, ?_⟩
  · intro s off n
    exact readStringTable_run off n s
  · intro s off
    rw [readStringTable_run, if_pos (Nat.zero_le _)]
    simp
  · intro input obj h
    obtain ⟨_, _, p2, p3, _, _, _, hloc, hext⟩ := decodeEcoff_ok_inv input obj h
    rw [readStringTable_run] at hloc hext
    constructor
    · split at hloc
      · simp only [Except.ok.injEq, Prod.mk.injEq] at hloc
        exact hloc.1.symm
      · cases hloc
    · split at hext
      · simp only [Except.ok.injEq, Prod.mk.injEq] at hext
        exact hext.1.symm
      · cases hext

/-- Witness for C7 at the minimal decodable input. -/
theorem C7_string_table_extractor_witness :
    decodeEcoff minOkInput = .ok minOkObject ∧
    (minOkObject.localStrings =
      (minOkInput.drop minOkObject.symbolHeader.cb_ss_offset).take
        minOkObject.symbolHeader.iss_max ∧
     minOkObject.externalStrings =
      (minOkInput.drop minOkObject.symbolHeader.cb_ss_ext_offset).take
        minOkObject.symbolHeader.iss_ext_max) :=
  ⟨rfl, C7_string_table_extractor.2.2 minOkInput minOkObject rfl⟩

/-- C9: every random-access extraction performs an absolute seek to its
declared offset before reading, so its entire result, success or failure, is
the same from any two prior reader positions; this covers section payloads
and both string-table extractions, which use the same extractor. -/
theorem C9_extraction_position_independent (bytes : List Nat) (p1 p2 : Nat)
    (hdr : EcoffSectionHeader) (off n : Nat) :
    read_section_data hdr ⟨bytes, p1⟩ = read_section_data hdr ⟨bytes, p2⟩ ∧
    readStringTable off n ⟨bytes, p1⟩ = readStringTable off n ⟨bytes, p2⟩ := by
  constructor
  · rw [read_section_data_run, read_section_data_run]
  · rw [readStringTable_run, readStringTable_run]

/-- C3: the decoded object's optional header is an optional value that is
present iff FileHeader.optionalHeaderSize is positive; when the size is
zero the optional-header stage consumes no bytes and leaves the state
untouched, and the file-header stage always leaves the position at byte 20,
where the first section header is read. -/
theorem C3_optional_header_gate :
    (∀ (input : List Nat) (obj : EcoffObject), decodeEcoff input = .ok obj →
      (obj.optionalHeader.isSome = true ↔ 0 < obj.fileHeader.f_opthdr)) ∧
    (∀ (fh : EcoffFileHeader) (s : ReaderState), fh.f_opthdr = 0 →
      readOptionalIfPresent fh s = .ok (none, s)) ∧
    (∀ (input : List Nat) (fh : EcoffFileHeader) (s1 : ReaderState),
      read_file_header ⟨input, 0⟩ = .ok (fh, s1) → s1 = ⟨input, 20⟩) := by
  refine ⟨?_, ?_, ?_⟩
  · intro input obj h
    obtain ⟨_, _, p2, p3, hopt, _⟩ := decodeEcoff_ok_inv input obj h
    by_cases hp : 0 < obj.fileHeader.f_opthdr
    · rw [readOptionalIfPresent_present _ _ _ hp] at hopt
      split at hopt
      · simp only [Except.ok.injEq, Prod.mk.injEq] at hopt
        rw [← hopt.1]
        simp [hp]
      · cases hopt
    · rw [readOptionalIfPresent_absent _ _ (by omega)] at hopt
      simp only [Except.ok.injEq, Prod.mk.injEq] at hopt
      rw [← hopt.1]
      simp [hp]
  · intro fh s h
    exact readOptionalIfPresent_absent fh s h
  · intro input fh s1 h
    rw [read_file_header_run] at h
    split at h
    · simp only [Except.ok.injEq, Prod.mk.injEq] at h
      rw [← h.2]
    · cases h

/-- Witness for C3 at the minimal decodable input, whose optional-header
size is zero and whose decoded optional header is absent. -/
theorem C3_optional_header_gate_witness :
    decodeEcoff minOkInput = .ok minOkObject ∧
    (minOkObject.optionalHeader.isSome = true ↔ 0 < minOkObject.fileHeader.f_opthdr) :=
  ⟨rfl, C3_optional_header_gate.1 minOkInput minOkObject rfl⟩

/-- C6: the decode is fail-fast: the first error of any stage, file header,
optional header, section loop, symbolic header, local or external string
table, becomes the single tagged error of the whole decode, unchanged; no
partial object and no defaulted fields are ever produced. -/
theorem C6_fail_fast (input : List Nat) :
    (∀ e, read_file_header ⟨input, 0⟩ = .error e →
      decodeEcoff input = .error e) ∧
    (∀ fh s1 e, read_file_header ⟨input, 0⟩ = .ok (fh, s1) →
      readOptionalIfPresent fh s1 = .error e →
      decodeEcoff input = .error e) ∧
    (∀ fh s1 opt s2 e, read_file_header ⟨input, 0⟩ = .ok (fh, s1) →
      readOptionalIfPresent fh s1 = .ok (opt, s2) →
      readSections fh.f_nscns s2 = .error e →
      decodeEcoff input = .error e) ∧
    (∀ fh s1 opt s2 secs s3 e, read_file_header ⟨input, 0⟩ = .ok (fh, s1) →
      readOptionalIfPresent fh s1 = .ok (opt, s2) →
      readSections fh.f_nscns s2 = .ok (secs, s3) →
      read_symbol_header ⟨s3.bytes, fh.f_symptr⟩ = .error e →
      decodeEcoff input = .error e) ∧
    (∀ fh s1 opt s2 secs s3 sh s4 e, read_file_header ⟨input, 0⟩ = .ok (fh, s1) →
      readOptionalIfPresent fh s1 = .ok (opt, s2) →
      readSections fh.f_nscns s2 = .ok (secs, s3) →
      read_symbol_header ⟨s3.bytes, fh.f_symptr⟩ = .ok (sh, s4) →
      readStringTable sh.cb_ss_offset sh.iss_max s4 = .error e →
      decodeEcoff input = .error e) ∧
    (∀ fh s1 opt s2 secs s3 sh s4 loc s5 e,
      read_file_header ⟨input, 0⟩ = .ok (fh, s1) →
      readOptionalIfPresent fh s1 = .ok (opt, s2) →
      readSections fh.f_nscns s2 = .ok (secs, s3) →
      read_symbol_header ⟨s3.bytes, fh.f_symptr⟩ = .ok (sh, s4) →
      readStringTable sh.cb_ss_offset sh.iss_max s4 = .ok (loc, s5) →
      readStringTable sh.cb_ss_ext_offset sh.iss_ext_max s5 = .error e →
      decodeEcoff input = .error e) := by
  refine ⟨?_, ?_, ?_, ?_, ?_, ?_⟩
  · intro e h1
    rw [decodeEcoff_def, decodeAll_run, h1, err_bind, map_err]
  · intro fh s1 e h1 h2
    rw [decodeEcoff_def, decodeAll_run, h1, ok_bind, decodeFrom_run, h2,
      err_bind, map_err]
  · intro fh s1 opt s2 e h1 h2 h3
    rw [decodeEcoff_def, decodeAll_run, h1, ok_bind, decodeFrom_run, h2,
      ok_bind, h3, err_bind, map_err]
  · intro fh s1 opt s2 secs s3 e h1 h2 h3 h4
    rw [decodeEcoff_def, decodeAll_run, h1, ok_bind, decodeFrom_run, h2,
      ok_bind, h3, ok_bind]
    simp only []
    rw [h4, err_bind, map_err]
  · intro fh s1 opt s2 secs s3 sh s4 e h1 h2 h3 h4 h5
    rw [decodeEcoff_def, decodeAll_run, h1, ok_bind, decodeFrom_run, h2,
      ok_bind, h3, ok_bind]
    simp only []
    rw [h4, ok_bind]
    simp only []
    rw [h5, err_bind, map_err]
  · intro fh s1 opt s2 secs s3 sh s4 loc s5 e h1 h2 h3 h4 h5 h6
    rw [decodeEcoff_def, decodeAll_run, h1, ok_bind, decodeFrom_run, h2,
      ok_bind, h3, ok_bind]
    simp only []
    rw [h4, ok_bind]
    simp only []
    rw [h5, ok_bind]
    simp only []
    rw [h6, err_bind, map_err]

/-- Witness for C6: the empty input fails in the file-header stage and the
whole decode reports exactly that error. -/
theorem C6_fail_fast_witness :
    read_file_header ⟨[], 0⟩ = .error (.truncatedInput 2 0) ∧
    decodeEcoff [] = .error (.truncatedInput 2 0) :=
  ⟨rfl, (C6_fail_fast []).1 (.truncatedInput 2 0) rfl⟩

/-- C1: on an input with two sections whose first section header declares
size 0 and data offset 100, the decoder reads the second section header from
byte 100, where the first payload read left the position, and not from byte
60, the position directly after the first section header: no reseek to the
header stream happens between sections.  The forty bytes at 60 start with
the name 66 repeated, yet the decoded second name is the 67-filled name
stored at byte 100. -/
theorem C1_no_reseek_between_sections :
    decodeEcoff twoSectionInput = .ok twoSectionObject ∧
    twoSectionObject.sections.map (fun sd => sd.1.s_name) =
      [List.replicate 8 65, List.replicate 8 67] ∧
    (twoSectionInput.drop 60).take 8 = List.replicate 8 66 ∧
    (twoSectionInput.drop 100).take 8 = List.replicate 8 67 := by
  refine ⟨?_, rfl, rfl, rfl⟩
  have h1 : read_file_header ⟨twoSectionInput, 0⟩ =
      .ok (twoSectionObject.fileHeader, ⟨twoSectionInput, 20⟩) := by rfl
  have h2 : readOptionalIfPresent twoSectionObject.fileHeader ⟨twoSectionInput, 20⟩ =
      .ok (none, ⟨twoSectionInput, 20⟩) :=
    readOptionalIfPresent_absent _ _ rfl
  have hs1 : read_section_header ⟨twoSectionInput, 20⟩ =
      .ok (twoSectionHdrA, ⟨twoSectionInput, 60⟩) := by rfl
  have hd1 : read_section_data twoSectionHdrA ⟨twoSectionInput, 60⟩ =
      .ok ([], ⟨twoSectionInput, 100⟩) := by rfl
  have hs2 : read_section_header ⟨twoSectionInput, 100⟩ =
      .ok (twoSectionHdrB, ⟨twoSectionInput, 140⟩) := by rfl
  have hd2 : read_section_data twoSectionHdrB ⟨twoSectionInput, 140⟩ =
      .ok ([], ⟨twoSectionInput, 140⟩) := by rfl
  have h3 : readSections 2 ⟨twoSectionInput, 20⟩ =
      .ok ([(twoSectionHdrA, []), (twoSectionHdrB, [])], ⟨twoSectionInput, 140⟩) := by
    rw [readSections_succ, hs1, ok_bind]
    simp only []
    rw [hd1, ok_bind]
    simp only []
    rw [readSections_succ, hs2, ok_bind]
    simp only []
    rw [hd2, ok_bind]
    simp only []
    rw [readSections_zero, ok_bind]
    rfl
  have h4 : read_symbol_header ⟨twoSectionInput, 140⟩ =
      .ok (zeroSymbolHeader, ⟨twoSectionInput, 236⟩) := by rfl
  have h5 : readStringTable 0 0 ⟨twoSectionInput, 236⟩ =
      .ok ([], ⟨twoSectionInput, 0⟩) := by rfl
  have h6 : readStringTable 0 0 ⟨twoSectionInput, 0⟩ =
      .ok ([], ⟨twoSectionInput, 0⟩) := by rfl
  exact decodeEcoff_mk twoSectionInput twoSectionObject.fileHeader none 20
    [(twoSectionHdrA, []), (twoSectionHdrB, [])] 140 zeroSymbolHeader [] []
    h1 h2 h3 h4 h5 h6

/-- Shifting a 16-bit extraction past a prefix of known length. -/
theorem u16at_after (l1 l2 : List Nat) (n k : Nat) (h : l1.length = n) :
    u16at (l1 ++ l2) (n + k) = u16at l2 k := by
  unfold u16at
  rw [← h, List.drop_append]

/-- Shifting a 32-bit extraction past a prefix of known length. -/
theorem u32at_after (l1 l2 : List Nat) (n k : Nat) (h : l1.length = n) :
    u32at (l1 ++ l2) (n + k) = u32at l2 k := by
  unfold u32at
  rw [← h, List.drop_append]

/-- Decoding an encoded file header recovers it exactly, consuming 20 bytes. -/
theorem read_file_header_roundtrip (h : EcoffFileHeader) (rest : List Nat)
    (hwf : wfFileHeader h) :
    read_file_header ⟨encodeFileHeader h ++ rest, 0⟩ =
      .ok (h, ⟨encodeFileHeader h ++ rest, 20⟩) := by
  obtain ⟨fm, fn, ft, fs, fy, fo, ff⟩ := h
  simp only [wfFileHeader] at hwf
  obtain ⟨b1, b2, b3, b4, b5, b6, b7⟩ := hwf
  have hlen : (encodeFileHeader ⟨fm, fn, ft, fs, fy, fo, ff⟩).length = 20 := by
    simp [encodeFileHeader, encodeU16BE, encodeU32BE]
  rw [read_file_header_run, if_pos (by rw [List.length_append, hlen]; omega)]
  simp only [encodeFileHeader, encodeU16BE, encodeU32BE, List.cons_append,
    List.nil_append, fileHeaderAt, u16at, u32at, beNat, Except.ok.injEq,
    Prod.mk.injEq, EcoffFileHeader.mk.injEq, ReaderState.mk.injEq]
  norm_num
  and_intros <;> omega

/-- Decoding an encoded optional header recovers it exactly, consuming 56
bytes. -/
theorem read_optional_header_roundtrip (h : EcoffOptionalHeader) (rest : List Nat)
    (hwf : wfOptionalHeader h) :
    read_optional_header ⟨encodeOptionalHeader h ++ rest, 0⟩ =
      .ok (h, ⟨encodeOptionalHeader h ++ rest, 56⟩) := by
  obtain ⟨mg, vs, ts, ds, bs, en, tx, da, bss, gp, cp, gpv⟩ := h
  simp only [wfOptionalHeader] at hwf
  obtain ⟨b1, b2, b3, b4, b5, b6, b7, b8, b9, b10,
    ⟨c0, c1, c2, c3, hcp, hc0, hc1, hc2, hc3⟩, b12⟩ := hwf
  subst hcp
  have hlen : (encodeOptionalHeader
      ⟨mg, vs, ts, ds, bs, en, tx, da, bss, gp, [c0, c1, c2, c3], gpv⟩).length = 56 := by
    simp [encodeOptionalHeader, encodeU16BE, encodeU32BE]
  rw [read_optional_header_run, if_pos (by rw [List.length_append, hlen]; omega)]
  simp only [encodeOptionalHeader, encodeU16BE, encodeU32BE, List.map_cons,
    List.map_nil, List.flatten, List.cons_append, List.nil_append,
    List.append_nil, optionalHeaderAt, u16at, u32at, beNat, Except.ok.injEq,
    Prod.mk.injEq, EcoffOptionalHeader.mk.injEq, ReaderState.mk.injEq,
    List.cons.injEq]
  norm_num
  and_intros <;> omega

/-- Decoding an encoded section header recovers it exactly, consuming 40
bytes; the eight name bytes are stored and recovered raw. -/
theorem read_section_header_roundtrip (h : EcoffSectionHeader) (rest : List Nat)
    (hwf : wfSectionHeader h) :
    read_section_header ⟨encodeSectionHeader h ++ rest, 0⟩ =
      .ok (h, ⟨encodeSectionHeader h ++ rest, 40⟩) := by
  obtain ⟨nm, pa, va, sz, sp, rp, lp, nr, nl, fl⟩ := h
  simp only [wfSectionHeader] at hwf
  obtain ⟨hn, b2, b3, b4, b5, b6, b7, b8, b9, b10⟩ := hwf
  have hlen : (encodeSectionHeader ⟨nm, pa, va, sz, sp, rp, lp, nr, nl, fl⟩).length = 40 := by
    simp [encodeSectionHeader, encodeU16BE, encodeU32BE, hn]
  rw [read_section_header_run, if_pos (by rw [List.length_append, hlen]; omega)]
  simp only [encodeSectionHeader, encodeU16BE, encodeU32BE, List.cons_append,
    List.nil_append, List.append_assoc, sectionHeaderAt, Except.ok.injEq,
    Prod.mk.injEq, EcoffSectionHeader.mk.injEq, ReaderState.mk.injEq,
    List.drop_zero, Nat.zero_add]
  and_intros
  all_goals first
    | exact List.take_left' hn
    | rfl
    | trivial
    | (rw [show (8 : Nat) = 8 + 0 from rfl, u32at_after _ _ _ _ hn]
       simp [u32at, beNat] <;> omega)
    | (rw [show (12 : Nat) = 8 + 4 from rfl, u32at_after _ _ _ _ hn]
       simp [u32at, beNat] <;> omega)
    | (rw [show (16 : Nat) = 8 + 8 from rfl, u32at_after _ _ _ _ hn]
       simp [u32at, beNat] <;> omega)
    | (rw [show (20 : Nat) = 8 + 12 from rfl, u32at_after _ _ _ _ hn]
       simp [u32at, beNat] <;> omega)
    | (rw [show (24 : Nat) = 8 + 16 from rfl, u32at_after _ _ _ _ hn]
       simp [u32at, beNat] <;> omega)
    | (rw [show (28 : Nat) = 8 + 20 from rfl, u32at_after _ _ _ _ hn]
       simp [u32at, beNat] <;> omega)
    | (rw [show (32 : Nat) = 8 + 24 from rfl, u16at_after _ _ _ _ hn]
       simp [u16at, beNat] <;> omega)
    | (rw [show (34 : Nat) = 8 + 26 from rfl, u16at_after _ _ _ _ hn]
       simp [u16at, beNat] <;> omega)
    | (rw [show (36 : Nat) = 8 + 28 from rfl, u32at_after _ _ _ _ hn]
       simp [u32at, beNat] <;> omega)

/-- Decoding an encoded symbolic header recovers it exactly, consuming 96
bytes. -/
theorem read_symbol_header_roundtrip (h : SymbolHeader) (rest : List Nat)
    (hwf : wfSymbolHeader h) :
    read_symbol_header ⟨encodeSymbolHeader h ++ rest, 0⟩ =
      .ok (h, ⟨encodeSymbolHeader h ++ rest, 96⟩) := by
  obtain ⟨x1, x2, x3, x4, x5, x6, x7, x8, x9, x10, x11, x12, x13, x14, x15,
    x16, x17, x18, x19, x20, x21, x22, x23, x24, x25⟩ := h
  simp only [wfSymbolHeader] at hwf
  obtain ⟨b1, b2, b3, b4, b5, b6, b7, b8, b9, b10, b11, b12, b13, b14, b15,
    b16, b17, b18, b19, b20, b21, b22, b23, b24, b25⟩ := hwf
  have hlen : (encodeSymbolHeader ⟨x1, x2, x3, x4, x5, x6, x7, x8, x9, x10,
      x11, x12, x13, x14, x15, x16, x17, x18, x19, x20, x21, x22, x23, x24,
      x25⟩).length = 96 := by
    simp [encodeSymbolHeader, encodeU16BE, encodeU32BE]
  rw [read_symbol_header_run, if_pos (by rw [List.length_append, hlen]; omega)]
  simp only [encodeSymbolHeader, encodeU16BE, encodeU32BE, List.cons_append,
    List.nil_append, symbolHeaderAt, u16at, u32at, beNat, Except.ok.injEq,
    Prod.mk.injEq, SymbolHeader.mk.injEq, ReaderState.mk.injEq]
  norm_num
  and_intros <;> omega

/-- C8: decoding the big-endian encoding of any representable file header,
optional header, section header or symbolic header, followed by any
remaining bytes, recovers exactly the original record and consumes exactly
its fixed width, validating the fidelity of the fixed layout. -/
theorem C8_round_trip :
    (∀ (h : EcoffFileHeader) (rest : List Nat), wfFileHeader h →
      read_file_header ⟨encodeFileHeader h ++ rest, 0⟩ =
        .ok (h, ⟨encodeFileHeader h ++ rest, 20⟩)) ∧
    (∀ (h : EcoffOptionalHeader) (rest : List Nat), wfOptionalHeader h →
      read_optional_header ⟨encodeOptionalHeader h ++ rest, 0⟩ =
        .ok (h, ⟨encodeOptionalHeader h ++ rest, 56⟩)) ∧
    (∀ (h : EcoffSectionHeader) (rest : List Nat), wfSectionHeader h →
      read_section_header ⟨encodeSectionHeader h ++ rest, 0⟩ =
        .ok (h, ⟨encodeSectionHeader h ++ rest, 40⟩)) ∧
    (∀ (h : SymbolHeader) (rest : List Nat), wfSymbolHeader h →
      read_symbol_header ⟨encodeSymbolHeader h ++ rest, 0⟩ =
        .ok (h, ⟨encodeSymbolHeader h ++ rest, 96⟩)) :=
  ⟨read_file_header_roundtrip, read_optional_header_roundtrip,
   read_section_header_roundtrip, read_symbol_header_roundtrip⟩

/-- Witness for C8 at a concrete file header. -/
theorem C8_round_trip_witness :
    wfFileHeader sampleFileHeader ∧
    read_file_header ⟨encodeFileHeader sampleFileHeader ++ [], 0⟩ =
      .ok (sampleFileHeader, ⟨encodeFileHeader sampleFileHeader ++ [], 20⟩) :=
  ⟨by decide, C8_round_trip.1 sampleFileHeader [] (by decide)⟩

/-- Equal windows give equal slices: if two inputs agree pointwise on the
positions of a window, the corresponding slice is identical. -/
theorem slice_congr_window (b1 b2 : List Nat) (p n : Nat)
    (h : ∀ i : Nat, p ≤ i → i < p + n → b1[i]? = b2[i]?) :
    (b1.drop p).take n = (b2.drop p).take n := by
  apply List.ext_getElem?
  intro j
  rw [List.getElem?_take, List.getElem?_take]
  by_cases hj : j < n
  · rw [if_pos hj, if_pos hj, List.getElem?_drop, List.getElem?_drop]
    exact h (p + j) (by omega) (by omega)
  · rw [if_neg hj, if_neg hj]

/-- Positions at or beyond the mutable bound are not mutable. -/
theorem mutable_lt (o i : Nat) (h : mutBound o ≤ i) : i ∉ mutablePositions o := by
  intro hm
  unfold mutablePositions at hm
  unfold mutBound at h
  by_cases ho : 0 < o
  · rw [if_pos ho] at h hm
    rcases List.mem_append.mp hm with hh | hh <;>
      simp only [List.mem_cons, List.not_mem_nil, or_false] at hh <;> omega
  · rw [if_neg ho] at h hm
    rw [List.append_nil] at hm
    simp only [List.mem_cons, List.not_mem_nil, or_false] at hm
    omega

/-- The byte positions of the gating fields, sectionCount, symbolTableOffset
and optionalHeaderSize, are never mutable. -/
theorem gating_not_mutable (o i : Nat)
    (hi : i = 2 ∨ i = 3 ∨ i = 8 ∨ i = 9 ∨ i = 10 ∨ i = 11 ∨ i = 16 ∨ i = 17) :
    i ∉ mutablePositions o := by
  intro hm
  unfold mutablePositions at hm
  by_cases ho : 0 < o
  · rw [if_pos ho] at hm
    rcases List.mem_append.mp hm with hh | hh <;>
      simp only [List.mem_cons, List.not_mem_nil, or_false] at hh <;> omega
  · rw [if_neg ho] at hm
    rw [List.append_nil] at hm
    simp only [List.mem_cons, List.not_mem_nil, or_false] at hm
    omega

/-- 16-bit extractions agree wherever the inputs agree from a bound on. -/
theorem u16at_congr_ge (b1 b2 : List Nat) (m : Nat)
    (hge : ∀ i, m ≤ i → b1[i]? = b2[i]?) (p : Nat) (hp : m ≤ p) :
    u16at b1 p = u16at b2 p :=
  congrArg beNat (slice_congr_window b1 b2 p 2 (fun i h1 _ => hge i (by omega)))

/-- 32-bit extractions agree wherever the inputs agree from a bound on. -/
theorem u32at_congr_ge (b1 b2 : List Nat) (m : Nat)
    (hge : ∀ i, m ≤ i → b1[i]? = b2[i]?) (p : Nat) (hp : m ≤ p) :
    u32at b1 p = u32at b2 p :=
  congrArg beNat (slice_congr_window b1 b2 p 4 (fun i h1 _ => hge i (by omega)))

/-- Section headers read at or beyond the agreement bound are identical. -/
theorem sectionHeaderAt_congr_ge (b1 b2 : List Nat) (m : Nat)
    (hge : ∀ i, m ≤ i → b1[i]? = b2[i]?) (p : Nat) (hp : m ≤ p) :
    sectionHeaderAt b1 p = sectionHeaderAt b2 p := by
  unfold sectionHeaderAt
  simp only [EcoffSectionHeader.mk.injEq]
  and_intros
  all_goals first
    | exact slice_congr_window b1 b2 _ _ (fun i h1 _ => hge i (by omega))
    | exact u16at_congr_ge b1 b2 m hge _ (by omega)
    | exact u32at_congr_ge b1 b2 m hge _ (by omega)

/-- Symbolic headers read at or beyond the agreement bound are identical. -/
theorem symbolHeaderAt_congr_ge (b1 b2 : List Nat) (m : Nat)
    (hge : ∀ i, m ≤ i → b1[i]? = b2[i]?) (p : Nat) (hp : m ≤ p) :
    symbolHeaderAt b1 p = symbolHeaderAt b2 p := by
  unfold symbolHeaderAt
  simp only [SymbolHeader.mk.injEq]
  and_intros
  all_goals first
    | exact u16at_congr_ge b1 b2 m hge _ (by omega)
    | exact u32at_congr_ge b1 b2 m hge _ (by omega)

/-- An optional header read at byte 20 of the second input differs from the
one read from the first input only in its magic field, when the inputs agree
from byte 22 on. -/
theorem optionalHeaderAt_congr_magic (b1 b2 : List Nat)
    (hge : ∀ i, 22 ≤ i → b1[i]? = b2[i]?) :
    optionalHeaderAt b2 20 = { optionalHeaderAt b1 20 with magic := u16at b2 20 } := by
  unfold optionalHeaderAt
  simp only [EcoffOptionalHeader.mk.injEq, List.cons.injEq, and_true]
  and_intros
  all_goals first
    | rfl
    | trivial
    | exact (u16at_congr_ge b1 b2 22 hge _ (by omega)).symm
    | exact (u32at_congr_ge b1 b2 22 hge _ (by omega)).symm

/-- Section loops over two inputs of equal length that agree from a bound on
produce identical results when the loop starts at or beyond the bound and
every payload offset is at or beyond the bound: the loop's reads all live in
the agreeing region. -/
theorem readSections_congr (b1 b2 : List Nat) (m : Nat)
    (hlen : b1.length = b2.length)
    (hge : ∀ i, m ≤ i → b1[i]? = b2[i]?) :
    ∀ (n p : Nat) (secs : List (EcoffSectionHeader × List Nat)) (p3 : Nat),
      m ≤ p →
      readSections n ⟨b1, p⟩ = .ok (secs, ⟨b1, p3⟩) →
      (∀ sd ∈ secs, m ≤ sd.1.s_scnptr) →
      readSections n ⟨b2, p⟩ = .ok (secs, ⟨b2, p3⟩) := by
  intro n
  induction n with
  | zero =>
    intro p secs p3 hp h hsc
    rw [readSections_zero] at h ⊢
    simp only [Except.ok.injEq, Prod.mk.injEq, ReaderState.mk.injEq] at h ⊢
    exact ⟨h.1, trivial, h.2.2⟩
  | succ k ih =>
    intro p secs p3 hp h hsc
    rw [readSections_succ] at h ⊢
    by_cases h40 : p + 40 ≤ b1.length
    case neg =>
      rw [read_section_header_run, if_neg h40, err_bind] at h
      cases h
    rw [read_section_header_run, if_pos h40, ok_bind] at h
    simp only [] at h
    rw [read_section_data_run] at h
    by_cases hsz : (sectionHeaderAt b1 p).s_size ≤
        b1.length - (sectionHeaderAt b1 p).s_scnptr
    case neg =>
      rw [if_neg hsz, err_bind] at h
      cases h
    rw [if_pos hsz, ok_bind] at h
    simp only [] at h
    cases ht : readSections k
        ⟨b1, (sectionHeaderAt b1 p).s_scnptr + (sectionHeaderAt b1 p).s_size⟩ with
    | error e => rw [ht, err_bind] at h; cases h
    | ok t =>
      rw [ht, ok_bind] at h
      simp only [Except.ok.injEq, Prod.mk.injEq] at h
      obtain ⟨hsecs, hst⟩ := h
      have hbytes : t.2.bytes = b1 := readSections_ok_bytes k _ _ _ (by rw [ht])
      have hhd : m ≤ (sectionHeaderAt b1 p).s_scnptr := by
        have := hsc ((sectionHeaderAt b1 p),
          (b1.drop (sectionHeaderAt b1 p).s_scnptr).take (sectionHeaderAt b1 p).s_size)
          (by rw [← hsecs]; exact List.mem_cons_self _ _)
        exact this
      rw [read_section_header_run, if_pos (by omega), ok_bind]
      simp only []
      have hhdr : sectionHeaderAt b2 p = sectionHeaderAt b1 p :=
        (sectionHeaderAt_congr_ge b1 b2 m hge p hp).symm
      rw [hhdr, read_section_data_run, ← hlen, if_pos hsz, ok_bind]
      simp only []
      have hdata : (b2.drop (sectionHeaderAt b1 p).s_scnptr).take
          (sectionHeaderAt b1 p).s_size =
          (b1.drop (sectionHeaderAt b1 p).s_scnptr).take (sectionHeaderAt b1 p).s_size :=
        (slice_congr_window b1 b2 _ _ (fun i h1 _ => hge i (by omega))).symm
      rw [hdata]
      have ht1 : readSections k
          ⟨b1, (sectionHeaderAt b1 p).s_scnptr + (sectionHeaderAt b1 p).s_size⟩ =
          .ok (t.1, ⟨b1, t.2.pos⟩) := by
        rw [ht]
        rw [show t = (t.1, ⟨b1, t.2.pos⟩) from by rw [← hbytes]]
      have ht2 : readSections k
          ⟨b2, (sectionHeaderAt b1 p).s_scnptr + (sectionHeaderAt b1 p).s_size⟩ =
          .ok (t.1, ⟨b2, t.2.pos⟩) := by
        apply ih _ t.1 t.2.pos (by omega) ht1
        intro sd hsd
        exact hsc sd (by rw [← hsecs]; exact List.mem_cons_of_mem _ hsd)
      rw [ht2, ok_bind]
      simp only []
      have hpos : t.2.pos = p3 := by rw [hst]
      rw [hsecs, hpos]

/-- C10 amended: for two inputs of equal length that differ only in the
non-gating file-header fields (f_magic, f_timdat, f_nsyms, f_flags, and the
optional-header magic when an optional header is present), if the first
decodes successfully and every random-access target recorded in its decoded
object (section payload offsets, the symbol-table offset, both string-table
offsets) lies at or beyond the end of the mutated region, then the second
decodes successfully as well, to the same object with exactly the mutated
fields re-read from the second input. -/
theorem C10_noninterference (b1 b2 : List Nat) (obj : EcoffObject)
    (hagree : agreeOutsideMutable b1 b2)
    (hok : decodeEcoff b1 = .ok obj)
    (hseek : seekTargetsBeyond obj) :
    decodeEcoff b2 = .ok (retagged b2 obj) := by
  obtain ⟨hlen, hag⟩ := hagree
  obtain ⟨h20, hfh, p2, p3, hopt, hsec, hsym, hloc, hext⟩ :=
    decodeEcoff_ok_inv b1 obj hok
  obtain ⟨hsc, hsymptr, hssoff, hssext⟩ := hseek
  have hOeq : obj.fileHeader.f_opthdr = u16at b1 16 := by
    rw [hfh]
    simp [fileHeaderAt]
  have hge : ∀ i, mutBound obj.fileHeader.f_opthdr ≤ i → b1[i]? = b2[i]? := by
    intro i hi
    refine hag i ?_
    have hmem := mutable_lt obj.fileHeader.f_opthdr i hi
    rw [hOeq] at hmem
    exact hmem
  have hgate : ∀ i, (i = 2 ∨ i = 3 ∨ i = 8 ∨ i = 9 ∨ i = 10 ∨ i = 11 ∨
      i = 16 ∨ i = 17) → b1[i]? = b2[i]? := by
    intro i hi
    exact hag i (gating_not_mutable (u16at b1 16) i hi)
  have hnscns : u16at b2 2 = u16at b1 2 :=
    (congrArg beNat
      (slice_congr_window b1 b2 2 2 (fun i hi1 hi2 => hgate i (by omega)))).symm
  have hsymeq : u32at b2 8 = u32at b1 8 :=
    (congrArg beNat
      (slice_congr_window b1 b2 8 4 (fun i hi1 hi2 => hgate i (by omega)))).symm
  have hoptheq : u16at b2 16 = u16at b1 16 :=
    (congrArg beNat
      (slice_congr_window b1 b2 16 2 (fun i hi1 hi2 => hgate i (by omega)))).symm
  have hropt : (retagged b2 obj).fileHeader.f_opthdr = obj.fileHeader.f_opthdr := rfl
  have h1b2 : read_file_header ⟨b2, 0⟩ =
      .ok ((retagged b2 obj).fileHeader, ⟨b2, 20⟩) := by
    rw [read_file_header_run, if_pos (by omega)]
    simp only [retagged, hfh, fileHeaderAt, EcoffFileHeader.mk.injEq,
      Except.ok.injEq, Prod.mk.injEq, ReaderState.mk.injEq, Nat.zero_add]
    and_intros
    all_goals first
      | rfl
      | trivial
      | exact hnscns
      | exact hsymeq
      | exact hoptheq
  have hopt2 : readOptionalIfPresent (retagged b2 obj).fileHeader ⟨b2, 20⟩ =
      .ok ((retagged b2 obj).optionalHeader, ⟨b2, p2⟩) ∧
      mutBound obj.fileHeader.f_opthdr ≤ p2 := by
    by_cases hp : 0 < obj.fileHeader.f_opthdr
    · rw [readOptionalIfPresent_present _ _ _ hp] at hopt
      by_cases h76 : 20 + 56 ≤ b1.length
      case neg => rw [if_neg h76] at hopt; cases hopt
      rw [if_pos h76] at hopt
      simp only [Except.ok.injEq, Prod.mk.injEq, ReaderState.mk.injEq,
        eq_self_iff_true, true_and, and_true] at hopt
      obtain ⟨hoh, hp2⟩ := hopt
      have hge22 : ∀ i, 22 ≤ i → b1[i]? = b2[i]? := by
        intro i hi
        refine hge i ?_
        unfold mutBound
        rw [if_pos hp]
        omega
      constructor
      · rw [readOptionalIfPresent_present _ _ _ (by rw [hropt]; exact hp)]
        rw [if_pos (by omega)]
        have hoat : optionalHeaderAt b2 20 =
            { optionalHeaderAt b1 20 with magic := u16at b2 20 } :=
          optionalHeaderAt_congr_magic b1 b2 hge22
        simp only [retagged]
        rw [← hoh]
        simp only [Option.map_some']
        rw [hoat, hp2]
      · unfold mutBound
        rw [if_pos hp]
        omega
    · have h0 : obj.fileHeader.f_opthdr = 0 := by omega
      rw [readOptionalIfPresent_absent _ _ h0] at hopt
      simp only [Except.ok.injEq, Prod.mk.injEq, ReaderState.mk.injEq,
        eq_self_iff_true, true_and, and_true] at hopt
      obtain ⟨hoh, hp2⟩ := hopt
      constructor
      · rw [readOptionalIfPresent_absent _ _ (by rw [hropt]; exact h0)]
        simp only [retagged]
        rw [← hoh]
        simp only [Option.map_none']
        rw [← hp2]
      · unfold mutBound
        rw [if_neg hp]
        omega
  obtain ⟨h2b2, hmp2⟩ := hopt2
  have hsec2 : readSections obj.fileHeader.f_nscns ⟨b2, p2⟩ =
      .ok (obj.sections, ⟨b2, p3⟩) :=
    readSections_congr b1 b2 (mutBound obj.fileHeader.f_opthdr) hlen hge
      obj.fileHeader.f_nscns p2 obj.sections p3 hmp2 hsec hsc
  rw [read_symbol_header_run] at hsym
  by_cases hS : obj.fileHeader.f_symptr + 96 ≤ b1.length
  case neg => rw [if_neg hS] at hsym; cases hsym
  rw [if_pos hS] at hsym
  simp only [Except.ok.injEq, Prod.mk.injEq, ReaderState.mk.injEq,
    eq_self_iff_true, true_and, and_true] at hsym
  have hsym2 : read_symbol_header ⟨b2, obj.fileHeader.f_symptr⟩ =
      .ok (obj.symbolHeader, ⟨b2, obj.fileHeader.f_symptr + 96⟩) := by
    rw [read_symbol_header_run, if_pos (by omega)]
    have hsb : symbolHeaderAt b2 obj.fileHeader.f_symptr = obj.symbolHeader := by
      rw [← hsym]
      exact (symbolHeaderAt_congr_ge b1 b2 _ hge _ hsymptr).symm
    rw [hsb]
  rw [readStringTable_run] at hloc
  by_cases hL : obj.symbolHeader.iss_max ≤ b1.length - obj.symbolHeader.cb_ss_offset
  case neg => rw [if_neg hL] at hloc; cases hloc
  rw [if_pos hL] at hloc
  simp only [Except.ok.injEq, Prod.mk.injEq, ReaderState.mk.injEq,
    eq_self_iff_true, true_and, and_true] at hloc
  have hloc2 : readStringTable obj.symbolHeader.cb_ss_offset
      obj.symbolHeader.iss_max ⟨b2, obj.fileHeader.f_symptr + 96⟩ =
      .ok (obj.localStrings,
        ⟨b2, obj.symbolHeader.cb_ss_offset + obj.symbolHeader.iss_max⟩) := by
    rw [readStringTable_run]
    simp only []
    rw [if_pos (by omega)]
    have hv : (b2.drop obj.symbolHeader.cb_ss_offset).take obj.symbolHeader.iss_max =
        obj.localStrings := by
      rw [← hloc]
      exact (slice_congr_window b1 b2 _ _ (fun i h1 _ => hge i (by omega))).symm
    rw [hv]
  rw [readStringTable_run] at hext
  by_cases hE : obj.symbolHeader.iss_ext_max ≤
      b1.length - obj.symbolHeader.cb_ss_ext_offset
  case neg => rw [if_neg hE] at hext; cases hext
  rw [if_pos hE] at hext
  simp only [Except.ok.injEq, Prod.mk.injEq, ReaderState.mk.injEq,
    eq_self_iff_true, true_and, and_true] at hext
  have hext2 : readStringTable obj.symbolHeader.cb_ss_ext_offset
      obj.symbolHeader.iss_ext_max
      ⟨b2, obj.symbolHeader.cb_ss_offset + obj.symbolHeader.iss_max⟩ =
      .ok (obj.externalStrings,
        ⟨b2, obj.symbolHeader.cb_ss_ext_offset + obj.symbolHeader.iss_ext_max⟩) := by
    rw [readStringTable_run]
    simp only []
    rw [if_pos (by omega)]
    have hv : (b2.drop obj.symbolHeader.cb_ss_ext_offset).take
        obj.symbolHeader.iss_ext_max = obj.externalStrings := by
      rw [← hext]
      exact (slice_congr_window b1 b2 _ _ (fun i h1 _ => hge i (by omega))).symm
    rw [hv]
  exact decodeEcoff_mk b2 (retagged b2 obj).fileHeader
    (retagged b2 obj).optionalHeader p2 obj.sections p3 obj.symbolHeader
    obj.localStrings obj.externalStrings h1b2 h2b2 hsec2 hsym2 hloc2 hext2

/-- C10 counterexample: two 160-byte inputs that differ only in the two
f_magic bytes, whose single section reads its 2-byte payload at data offset
0, both decode successfully, but the decoded objects differ in the section
payload, not only in the f_magic field: the payload is the magic itself. -/
theorem C10_overlap_counterexample :
    overlapInputA.take 2 = [0, 1] ∧
    overlapInputB.take 2 = [0, 2] ∧
    overlapInputA.drop 2 = overlapInputB.drop 2 ∧
    (decodeEcoff overlapInputA).map (fun o => o.sections.map fun sd => sd.2) =
      .ok [[0, 1]] ∧
    (decodeEcoff overlapInputB).map (fun o => o.sections.map fun sd => sd.2) =
      .ok [[0, 2]] :=
  ⟨rfl, rfl, rfl, rfl, rfl⟩

/-- Witness for C10 at a concrete pair of inputs: disjointInputB differs
from disjointInputA exactly in the f_magic, f_timdat, f_nsyms and f_flags
bytes, all random-access targets of the decoded object lie at or beyond
byte 20, and the second decode yields the first object with those four
fields re-read from the second input. -/
theorem C10_noninterference_witness :
    agreeOutsideMutable disjointInputA disjointInputB ∧
    decodeEcoff disjointInputA = .ok disjointObjectA ∧
    seekTargetsBeyond disjointObjectA ∧
    decodeEcoff disjointInputB = .ok (retagged disjointInputB disjointObjectA) := by
  have hagree : agreeOutsideMutable disjointInputA disjointInputB := by
    constructor
    · rfl
    · have hb : ∀ i, i < 162 → i ∉ mutablePositions (u16at disjointInputA 16) →
          disjointInputA[i]? = disjointInputB[i]? := by decide
      intro i hi
      by_cases hlt : i < 162
      · exact hb i hlt hi
      · rw [List.getElem?_eq_none (by rw [show disjointInputA.length = 162 from rfl]; omega),
           List.getElem?_eq_none (by rw [show disjointInputB.length = 162 from rfl]; omega)]
  have hok : decodeEcoff disjointInputA = .ok disjointObjectA := rfl
  have hseek : seekTargetsBeyond disjointObjectA := by
    unfold seekTargetsBeyond
    refine ⟨?_, ?_, ?_, ?_⟩ <;> decide
  exact ⟨hagree, hok, hseek, C10_noninterference _ _ _ hagree hok hseek⟩
